import Mathlib

/-!
# Verification of the nexus-mail SMTP client engine

Shallow embedding of the SMTP client found in `src/index.js` (class
`MySMTPClient` plus the module-level `sendMail` flow) and of the two
variant modules shipped in `src/unnamed/part_000`:

* `Part0A` — the first module of `part_000` (compact variant whose
  module-level `sendMail` swallows STARTTLS failure with `.catch(() => {})`);
* `Part0B` — the second module of `part_000` (the variant whose
  `_buildMessage` supports embedded images / `Content-ID` inline parts).

JavaScript strings are modelled as Lean `String` (protocol layer) and as
`List Char` (the byte/char-accurate line framer).  Node's `Buffer` /
UTF-8 byte sequences are modelled as `List Nat` byte values obtained via
`String.toUTF8`.  External collaborators (the filesystem, the HMAC-MD5
primitive, base64 *decoding* of the CRAM-MD5 challenge) are passed in as
explicit function parameters, mirroring how the source reaches out to
`fs`, `crypto.createHmac` and `Buffer.from(·, 'base64')`.
-/

namespace NexusMail

/-! ## JavaScript string primitives -/

/-- ASCII whitespace recognised by JavaScript's `String.prototype.trim`
(the Unicode space classes are irrelevant to SMTP reply lines and are
omitted). -/
def isJsSpace (c : Char) : Bool :=
  c = ' ' || c = '\t' || c = '\n' || c = '\r' || c = '\x0b' || c = '\x0c'

/-- `line.trim()` is truthy exactly when the line has a non-whitespace
character.  This is the guard `if (line.trim())` of `_processBuffer`. -/
def jsNonBlank (l : List Char) : Bool :=
  l.any (fun c => !(isJsSpace c))

/-- Digit test used by the `parseInt` model (equivalent to the ASCII
digit range). -/
def isDigitC (c : Char) : Bool :=
  48 ≤ c.toNat && c.toNat ≤ 57

/-- Value of a digit character. -/
def digitVal (c : Char) : Nat := c.toNat - 48

/-- Accumulate a digit string left to right, as `parseInt` does. -/
def digitsToNat (ds : List Char) : Nat :=
  ds.foldl (fun acc c => acc * 10 + digitVal c) 0

/-- The digit-run part of `parseInt`: longest digit prefix, `none` when
there is no digit (JavaScript `NaN`). -/
def parseDigits (l : List Char) : Option Nat :=
  let ds := l.takeWhile isDigitC
  if ds.isEmpty then none else some (digitsToNat ds)

/-- Model of JavaScript `parseInt(s)` (radix 10): skip leading
whitespace, optional sign, longest digit run; `none` models `NaN`. -/
def jsParseInt (s : String) : Option Int :=
  match s.data.dropWhile isJsSpace with
  | [] => none
  | c :: r =>
    if c = '-' then (parseDigits r).map (fun n => -(n : Int))
    else if c = '+' then (parseDigits r).map (fun n => (n : Int))
    else (parseDigits (c :: r)).map (fun n => (n : Int))

/-- `s.substring(0, n)`. -/
def strTake (n : Nat) (s : String) : String := ⟨s.data.take n⟩

/-- `s.substring(n)`. -/
def strDrop (n : Nat) (s : String) : String := ⟨s.data.drop n⟩

/-- Truthiness of a possibly-absent JavaScript string: `undefined` and
`''` are falsy. -/
def jsTruthy : Option String → Bool
  | none => false
  | some s => !(s == "")

/-- `o || dflt` for a possibly-absent string. -/
def jsOrStr (o : Option String) (dflt : String) : String :=
  match o with
  | some s => if s == "" then dflt else s
  | none => dflt

/-- Substring search backing `String.prototype.includes`: try the
pattern at every suffix. -/
def includesAux (pat : List Char) : List Char → Bool
  | [] => pat.isEmpty
  | c :: rest => pat.isPrefixOf (c :: rest) || includesAux pat rest

/-- Model of `s.includes(pat)`. -/
def jsIncludes (s pat : String) : Bool := includesAux pat.data s.data

/-! ## Base64 encoding (`Buffer.from(s).toString('base64')`) -/

/-- The base64 alphabet. -/
def b64Alphabet : List Char :=
  "ABCDEFGHIJKLMNOPQRSTUVWXYZabcdefghijklmnopqrstuvwxyz0123456789+/".data

/-- Character for a 6-bit group. -/
def b64Char (n : Nat) : Char := b64Alphabet.getD n '?'

/-- Standard base64 encoding of a byte list, with `=` padding. -/
def b64EncodeBytes : List Nat → List Char
  | [] => []
  | [a] =>
    [b64Char (a / 4), b64Char (a % 4 * 16), '=', '=']
  | [a, b] =>
    [b64Char (a / 4), b64Char (a % 4 * 16 + b / 16), b64Char (b % 16 * 4), '=']
  | a :: b :: c :: rest =>
    b64Char (a / 4) :: b64Char (a % 4 * 16 + b / 16) ::
      b64Char (b % 16 * 4 + c / 64) :: b64Char (c % 64) :: b64EncodeBytes rest

/-- UTF-8 encoding of one code point, at the `Nat` level (matches
`String.utf8EncodeChar`; `Char` excludes surrogates). -/
def utf8EncodeCharNat (n : Nat) : List Nat :=
  if n < 0x80 then [n]
  else if n < 0x800 then [0xC0 + n / 64, 0x80 + n % 64]
  else if n < 0x10000 then [0xE0 + n / 4096, 0x80 + n / 64 % 64, 0x80 + n % 64]
  else [0xF0 + n / 262144, 0x80 + n / 4096 % 64, 0x80 + n / 64 % 64, 0x80 + n % 64]

/-- UTF-8 bytes of a string (Node `Buffer.from(string)`). -/
def utf8Bytes (s : String) : List Nat :=
  s.data.flatMap (fun c => utf8EncodeCharNat c.toNat)

/-- `Buffer.from(bytes).toString('base64')`. -/
def b64OfBytes (bs : List Nat) : String := ⟨b64EncodeBytes bs⟩

/-- `Buffer.from(s).toString('base64')`. -/
def b64 (s : String) : String := b64OfBytes (utf8Bytes s)

/-! ## Line framer (`_onData` / `_processBuffer`)

`_onData` appends the chunk to `this.buffer`; `_processBuffer` does
`buffer.split('\r\n')`, keeps the popped final piece as the new buffer,
and hands each remaining piece to `_handleResponse` only when
`line.trim()` is truthy. -/

/-- `s.split('\r\n')` on character lists: always returns at least one
piece; the pieces joined by CRLF give back the input. -/
def splitCRLF : List Char → List (List Char)
  | [] => [[]]
  | '\r' :: '\n' :: rest => [] :: splitCRLF rest
  | c :: rest =>
    match splitCRLF rest with
    | [] => [[c]]
    | l :: ls => (c :: l) :: ls

/-- One `_onData`+`_processBuffer` round: the delivered lines (blank
ones filtered by the `line.trim()` guard) and the retained buffer. -/
def processChunk (buf chunk : List Char) : List (List Char) × List Char :=
  let pieces := splitCRLF (buf ++ chunk)
  ((pieces.dropLast).filter jsNonBlank, pieces.getLastD [])

/-- Feed a sequence of chunks through the framer starting from a given
buffer, collecting all delivered lines in order. -/
def runFramerFrom (buf : List Char) : List (List Char) → List (List Char) × List Char
  | [] => ([], buf)
  | c :: cs =>
    let p := processChunk buf c
    let r := runFramerFrom p.2 cs
    (p.1 ++ r.1, r.2)

/-- Feed a sequence of already-decoded chunks through a freshly
constructed client (`this.buffer = ''`). -/
def runFramer (chunks : List (List Char)) : List (List Char) × List Char :=
  runFramerFrom [] chunks

/-- The replacement character U+FFFD produced for malformed UTF-8. -/
def replChar : Char := Char.ofNat 0xFFFD

/-- `buf.toString('utf8')` on one chunk of bytes, per the WHATWG
decoder Node uses: well-formed sequences decode to their code point
(with the lead-dependent first-continuation ranges that exclude
overlong forms and surrogates), a stray or invalid byte becomes one
U+FFFD with decoding resuming at the next byte, and a sequence
truncated by the end of the chunk becomes one U+FFFD.  Each arriving
chunk is decoded independently — `_onData` has no incremental decoder
state — which is what makes byte-boundary placement observable. -/
def utf8DecodeBytes : List Nat → List Char
  | [] => []
  | b :: rest =>
    if b ≤ 0x7F then Char.ofNat b :: utf8DecodeBytes rest
    else if 0xC2 ≤ b && b ≤ 0xDF then
      match rest with
      | c1 :: r1 =>
        if 0x80 ≤ c1 && c1 ≤ 0xBF then
          Char.ofNat ((b - 0xC0) * 64 + (c1 - 0x80)) :: utf8DecodeBytes r1
        else replChar :: utf8DecodeBytes (c1 :: r1)
      | [] => [replChar]
    else if 0xE0 ≤ b && b ≤ 0xEF then
      let lo := if b = 0xE0 then 0xA0 else 0x80
      let hi := if b = 0xED then 0x9F else 0xBF
      match rest with
      | c1 :: r1 =>
        if lo ≤ c1 && c1 ≤ hi then
          match r1 with
          | c2 :: r2 =>
            if 0x80 ≤ c2 && c2 ≤ 0xBF then
              Char.ofNat ((b - 0xE0) * 4096 + (c1 - 0x80) * 64 + (c2 - 0x80)) ::
                utf8DecodeBytes r2
            else replChar :: utf8DecodeBytes (c2 :: r2)
          | [] => [replChar]
        else replChar :: utf8DecodeBytes (c1 :: r1)
      | [] => [replChar]
    else if 0xF0 ≤ b && b ≤ 0xF4 then
      let lo := if b = 0xF0 then 0x90 else 0x80
      let hi := if b = 0xF4 then 0x8F else 0xBF
      match rest with
      | c1 :: r1 =>
        if lo ≤ c1 && c1 ≤ hi then
          match r1 with
          | c2 :: r2 =>
            if 0x80 ≤ c2 && c2 ≤ 0xBF then
              match r2 with
              | c3 :: r3 =>
                if 0x80 ≤ c3 && c3 ≤ 0xBF then
                  Char.ofNat ((b - 0xF0) * 262144 + (c1 - 0x80) * 4096 +
                      (c2 - 0x80) * 64 + (c3 - 0x80)) :: utf8DecodeBytes r3
                else replChar :: utf8DecodeBytes (c3 :: r3)
              | [] => [replChar]
            else replChar :: utf8DecodeBytes (c2 :: r2)
          | [] => [replChar]
        else replChar :: utf8DecodeBytes (c1 :: r1)
      | [] => [replChar]
    else replChar :: utf8DecodeBytes rest

/-- The framer at the byte level: `_onData` runs
`this.buffer += data.toString()` on each arriving byte chunk, so every
chunk is UTF-8-decoded independently before entering the character
buffer. -/
def runFramerBytes (chunks : List (List Nat)) : List (List Char) × List Char :=
  runFramer (chunks.map utf8DecodeBytes)

/-- Decidable equality for `Except`, needed to settle concrete runs by
`decide`. -/
instance exceptDecEq {e a : Type} [DecidableEq e] [DecidableEq a] :
    DecidableEq (Except e a) := fun x y =>
  match x, y with
  | .ok v, .ok w =>
    if h : v = w then isTrue (by rw [h])
    else isFalse (by intro hc; injection hc; contradiction)
  | .error v, .error w =>
    if h : v = w then isTrue (by rw [h])
    else isFalse (by intro hc; injection hc; contradiction)
  | .ok _, .error _ => isFalse (by intro hc; exact Except.noConfusion hc)
  | .error _, .ok _ => isFalse (by intro hc; exact Except.noConfusion hc)

/-! ## Reply classification and the command/reply wire

`_sendCommand` installs a one-shot handler that parses the first three
characters of the reply and resolves on codes 200–399, rejecting with
`SMTP Error: <raw reply>` otherwise.  The wire model threads the list of
server reply lines (each installed handler consumes the next line) and
the transcript of commands written to the socket.  An exhausted reply
list models a reply that never arrives (the promise would hang); it is
reported as an error so the model stays total. -/

/-- The one-shot response handler installed by `_sendCommand`:
`code >= 200 && code < 400` resolves, everything else (including an
unparsable code, JavaScript `NaN`) rejects with the raw reply text. -/
def classifyReply (response : String) : Except String String :=
  match jsParseInt (strTake 3 response) with
  | some code =>
    if 200 ≤ code ∧ code < 400 then .ok response
    else .error ("SMTP Error: " ++ response)
  | none => .error ("SMTP Error: " ++ response)

/-- `true` when the handler would resolve the command's promise. -/
def replyOk (r : String) : Bool := (classifyReply r).isOk

/-- The greeting handler installed by `_waitForGreeting`: only code 220
resolves. -/
def greetReply (response : String) : Except String String :=
  if jsParseInt (strTake 3 response) = some 220 then .ok response
  else .error ("Invalid greeting: " ++ response)

/-- Connection state visible to `_sendCommand`: the connected flag, the
replies the server will send (in arrival order), the outcome of a TLS
handshake should one be attempted, and the transcript of commands
written so far. -/
structure Wire where
  connected : Bool
  replies : List String
  tlsOk : Bool
  sent : List String
deriving Repr, DecidableEq

/-- `_sendCommand(command)`: reject immediately when not connected;
otherwise write the command (the transcript grows even when the reply
later rejects) and hand the next reply line to the installed handler. -/
def sendCmd (cmd : String) (w : Wire) : Except String String × Wire :=
  if w.connected then
    let w' := { w with sent := w.sent ++ [cmd] }
    match w'.replies with
    | [] => (.error "no reply (connection stalled)", { w' with replies := [] })
    | r :: rs => (classifyReply r, { w' with replies := rs })
  else (.error "Not connected", w)

/-- `_waitForGreeting()`: installs a 220-only handler; no command is
written. -/
def waitGreeting (w : Wire) : Except String String × Wire :=
  match w.replies with
  | [] => (.error "no reply (connection stalled)", w)
  | r :: rs => (greetReply r, { w with replies := rs })

/-- Send a list of commands strictly in sequence, stopping at the first
rejection (the `await` chain of `sendMail`). -/
def runCmds : List String → Wire → Except String Unit × Wire
  | [], w => (.ok (), w)
  | c :: cs, w =>
    match sendCmd c w with
    | (.ok _, w') => runCmds cs w'
    | (.error e, w') => (.error e, w')

/-! ## The pending-handler slot (`currentHandler`)

`MySMTPClient` stores the single pending handler in `this.currentHandler`
and an array `this.responseHandlers` that the constructor initialises and
no method ever touches.  A handler is identified here by the command text
it was installed for, which is what observably distinguishes replacement
from rejection/deferral. -/

/-- The handler-slot fields of the client object. -/
structure Session where
  connected : Bool
  currentHandler : Option String
  responseHandlers : List String
deriving Repr, DecidableEq

/-- The handler-installation step of `_sendCommand` (`index.js` lines
177–199): reject without installing when not connected, otherwise
unconditionally assign `this.currentHandler`.  The returned flag is
whether the command was issued (written to the socket). -/
def sendCommandRegister (s : Session) (cmd : String) : Session × Bool :=
  if s.connected then ({ s with currentHandler := some cmd }, true)
  else (s, false)

/-- `_handleResponse(line)` (`index.js` lines 164–175): if a handler is
pending, invoke it with the line and clear the slot; otherwise the line
is transcript-only.  Returns which handler (command) consumed the line. -/
def handleResponse (s : Session) (line : String) : Session × Option (String × String) :=
  match s.currentHandler with
  | some h => ({ s with currentHandler := none }, some (h, line))
  | none => (s, none)

/-! ## Message identifiers -/

/-- One draw of the generator's entropy: `Date.now()` and
`crypto.randomBytes(8).toString('hex')`. -/
structure IdDraw where
  now : Nat
  rand : String
deriving Repr, DecidableEq

/-- `_generateMessageId()`:
`` `${Date.now()}${crypto.randomBytes(8).toString('hex')}@${this._getHostname()}` ``. -/
def generateMessageId (d : IdDraw) (host : String) : String :=
  toString d.now ++ d.rand ++ "@" ++ host

/-- The delivery receipt returned by `sendMail`. -/
structure Receipt where
  messageId : String
  accepted : List String
deriving Repr, DecidableEq

/-- The `to` field of the mail options: `Array.isArray(to) ? to : [to]`. -/
inductive ToField where
  | single (addr : String)
  | many (addrs : List String)
deriving Repr, DecidableEq

/-- Recipient normalisation performed by `sendMail`. -/
def recipientsOf : ToField → List String
  | .single a => [a]
  | .many l => l

/-! ## Attachment resolution (`_processAttachment`, `_getMimeType`) -/

/-- Content supplied for an attachment: a JavaScript string or a
`Buffer` (raw bytes). -/
inductive JsContent where
  | str (s : String)
  | buf (bytes : List Nat)
deriving Repr, DecidableEq

/-- Truthiness of a content value: `''` is falsy, a `Buffer` object is
always truthy. -/
def jsContentTruthy : JsContent → Bool
  | .str s => !(s == "")
  | .buf _ => true

/-- `Buffer.isBuffer(c) ? c : Buffer.from(c)`. -/
def contentBytes : JsContent → List Nat
  | .str s => utf8Bytes s
  | .buf b => b

/-- An attachment argument to `index.js`'s `_processAttachment`: a bare
path string, or an object (whose `filename`/`content` may be missing or
falsy, making it malformed). -/
inductive AttachmentInput where
  | filePath (p : String)
  | record (filename : Option String) (content : Option JsContent)
      (contentType : Option String)
deriving Repr, DecidableEq

/-- `path.basename`: the part after the last `/`. -/
def basename (s : String) : String :=
  ⟨(s.data.reverse.takeWhile (fun c => c ≠ '/')).reverse⟩

/-- `path.extname`: the suffix from the last dot, `''` when the name has
no dot (the leading-dot special case of Node's `path.extname` is not
exercised by any claim and is not modelled). -/
def extname (s : String) : String :=
  let revAfter := s.data.reverse.takeWhile (fun c => c ≠ '.')
  if revAfter.length = s.data.length then "" else ⟨'.' :: revAfter.reverse⟩

/-- The extension table of `index.js`'s `_getMimeType`. -/
def mimeTypesIndex : List (String × String) :=
  [(".txt", "text/plain"), (".html", "text/html"), (".htm", "text/html"),
   (".css", "text/css"), (".js", "application/javascript"),
   (".json", "application/json"), (".xml", "application/xml"),
   (".pdf", "application/pdf"), (".zip", "application/zip"),
   (".doc", "application/msword"),
   (".docx", "application/vnd.openxmlformats-officedocument.wordprocessingml.document"),
   (".xls", "application/vnd.ms-excel"),
   (".xlsx", "application/vnd.openxmlformats-officedocument.spreadsheetml.sheet"),
   (".ppt", "application/vnd.ms-powerpoint"),
   (".pptx", "application/vnd.openxmlformats-officedocument.presentationml.presentation"),
   (".jpg", "image/jpeg"), (".jpeg", "image/jpeg"), (".png", "image/png"),
   (".gif", "image/gif"), (".bmp", "image/bmp"), (".svg", "image/svg+xml"),
   (".mp3", "audio/mpeg"), (".wav", "audio/wav"), (".mp4", "video/mp4"),
   (".avi", "video/x-msvideo")]

/-- `_getMimeType(filename)`: table lookup on the lower-cased extension
with the generic binary default. -/
def getMimeType (filename : String) : String :=
  match mimeTypesIndex.lookup (extname filename).toLower with
  | some m => m
  | none => "application/octet-stream"

/-- A resolved attachment: filename, base64 content text, content type. -/
structure AttData where
  filename : String
  content : String
  contentType : String
deriving Repr, DecidableEq

/-- `index.js`'s `_processAttachment`; `fsRead` is the filesystem
collaborator (`fs.readFileSync`, `none` modelling a read error). -/
def processAttachment (fsRead : String → Option (List Nat)) :
    AttachmentInput → Except String AttData
  | .filePath p =>
    match fsRead p with
    | some bytes => .ok ⟨basename p, b64OfBytes bytes, getMimeType p⟩
    | none => .error ("ENOENT: no such file or directory, open " ++ p)
  | .record filename content contentType =>
    match filename, content with
    | some f, some c =>
      if !(f == "") && jsContentTruthy c then
        .ok ⟨f, b64OfBytes (contentBytes c), jsOrStr contentType (getMimeType f)⟩
      else .error "Invalid attachment format"
    | _, _ => .error "Invalid attachment format"

/-! ## Message construction (`_buildMessage` of `index.js`) -/

/-- `message.join('\r\n')`. -/
def crlfJoin (lines : List String) : String := String.intercalate "\r\n" lines

/-- `message[message.length - 1] = message[message.length - 1] + '--'`. -/
def appendToLast (suffix : String) : List String → List String
  | [] => []
  | [x] => [x ++ suffix]
  | x :: y :: xs => x :: appendToLast suffix (y :: xs)

/-- The lines pushed for one regular attachment in `index.js`'s
`_buildMessage` loop. -/
def attachmentBlock (mainB : String) (ad : AttData) : List String :=
  ["Content-Type: " ++ ad.contentType ++ "; name=\"" ++ ad.filename ++ "\"",
   "Content-Transfer-Encoding: base64",
   "Content-Disposition: attachment; filename=\"" ++ ad.filename ++ "\"",
   "", ad.content, "", "--" ++ mainB]

/-- `index.js` `_buildMessage` (lines 314–399).  The generator draws
(`Date.now`, `randomBytes`) are passed in: `d` feeds
`_generateMessageId`, `bnd` the boundary hex.  `jsOrStr text ""` models
`text || ''`. -/
def buildMessage (d : IdDraw) (host date bnd : String) (fromAddr : String)
    (toAddrs : List String) (subject : String) (text html : Option String)
    (fsRead : String → Option (List Nat)) (attachments : List AttachmentInput) :
    Except String (List String) := do
  let messageId := generateMessageId d host
  let boundary := "boundary_" ++ bnd
  let hdr : List String :=
    ["Message-ID: <" ++ messageId ++ ">",
     "Date: " ++ date,
     "From: " ++ fromAddr,
     "To: " ++ String.intercalate ", " toAddrs,
     "Subject: " ++ subject,
     "MIME-Version: 1.0"]
  let hasAttachments := !attachments.isEmpty
  let hasBothTextAndHtml := jsTruthy text && jsTruthy html
  if hasAttachments || hasBothTextAndHtml then
    let mainB := "main_" ++ boundary
    let altB := "alt_" ++ boundary
    let opening : List String :=
      ["Content-Type: multipart/mixed; boundary=\"" ++ mainB ++ "\"", "",
       "--" ++ mainB]
    let bodyPart : List String :=
      if hasBothTextAndHtml then
        ["Content-Type: multipart/alternative; boundary=\"" ++ altB ++ "\"", "",
         "--" ++ altB,
         "Content-Type: text/plain; charset=\"UTF-8\"",
         "Content-Transfer-Encoding: 7bit", "",
         jsOrStr text "", "",
         "--" ++ altB,
         "Content-Type: text/html; charset=\"UTF-8\"",
         "Content-Transfer-Encoding: 7bit", "",
         jsOrStr html "", "",
         "--" ++ altB ++ "--", "",
         "--" ++ mainB]
      else if jsTruthy text then
        ["Content-Type: text/plain; charset=\"UTF-8\"",
         "Content-Transfer-Encoding: 7bit", "",
         jsOrStr text "", "",
         "--" ++ mainB]
      else if jsTruthy html then
        ["Content-Type: text/html; charset=\"UTF-8\"",
         "Content-Transfer-Encoding: 7bit", "",
         jsOrStr html "", "",
         "--" ++ mainB]
      else []
    let attDatas ← attachments.mapM (processAttachment fsRead)
    let blocks := (attDatas.map (attachmentBlock mainB)).flatten
    pure (appendToLast "--" (hdr ++ opening ++ bodyPart ++ blocks))
  else
    let simpleCt :=
      if jsTruthy html then "Content-Type: text/html; charset=\"UTF-8\""
      else "Content-Type: text/plain; charset=\"UTF-8\""
    pure (hdr ++ [simpleCt, "Content-Transfer-Encoding: 7bit", "",
                  jsOrStr html (jsOrStr text "")])

/-! ## The SMTP transaction (`sendMail` method of `index.js`) -/

/-- One `sendMail(mailOptions)` call on an `index.js` client.  `d0` is
the generator draw consumed by `_buildMessage` for the `Message-ID`
header; `d1` is the later, separate draw consumed for the receipt. -/
def sendMailM (d0 d1 : IdDraw) (host date bnd : String) (authenticated : Bool)
    (fromAddr : String) (toField : ToField) (subject : String)
    (text html : Option String) (fsRead : String → Option (List Nat))
    (attachments : List AttachmentInput) (w : Wire) :
    Except String Receipt × Wire :=
  if authenticated then
    match sendCmd ("MAIL FROM:<" ++ fromAddr ++ ">") w with
    | (.error e, w) => (.error e, w)
    | (.ok _, w) =>
      let recipients := recipientsOf toField
      match runCmds (recipients.map (fun r => "RCPT TO:<" ++ r ++ ">")) w with
      | (.error e, w) => (.error e, w)
      | (.ok _, w) =>
        match sendCmd "DATA" w with
        | (.error e, w) => (.error e, w)
        | (.ok _, w) =>
          match buildMessage d0 host date bnd fromAddr recipients subject
              text html fsRead attachments with
          | .error e => (.error e, w)
          | .ok lines =>
            match sendCmd (crlfJoin lines ++ "\r\n.") w with
            | (.error e, w) => (.error e, w)
            | (.ok _, w) => (.ok ⟨generateMessageId d1 host, recipients⟩, w)
  else (.error "Not authenticated", w)

/-- The full command sequence a successful `sendMail` writes. -/
def cmdSeq (fromAddr : String) (recipients : List String) (msg : String) :
    List String :=
  ("MAIL FROM:<" ++ fromAddr ++ ">") ::
    recipients.map (fun r => "RCPT TO:<" ++ r ++ ">") ++
    ["DATA", msg ++ "\r\n."]

/-! ## Authentication (`login`, `_authCramMD5` of `index.js`)

`hmacMd5Hex key msg` stands for `crypto.createHmac('md5', key)` updated
with `msg` and digested to hex; `b64DecodeStr` stands for
`Buffer.from(challenge, 'base64').toString()`.  Both are external crypto
collaborators passed as parameters. -/

/-- `_authCramMD5()`: request a challenge, answer with
`base64(user ++ " " ++ hex-digest)`. -/
def authCramMD5 (u p : String) (hmacMd5Hex : String → String → String)
    (b64DecodeStr : String → String) (w : Wire) : Except String String × Wire :=
  match sendCmd "AUTH CRAM-MD5" w with
  | (.error e, w1) => (.error e, w1)
  | (.ok response, w1) =>
    let challenge := strDrop 4 response
    let decodedChallenge := b64DecodeStr challenge
    let hmacDigest := hmacMd5Hex p decodedChallenge
    sendCmd (b64 (u ++ " " ++ hmacDigest)) w1

/-- `login()` of `index.js` (lines 236–274): `AUTH LOGIN` (three round
trips), falling back to `AUTH PLAIN`, falling back to `AUTH CRAM-MD5`;
the exhaustion error wraps `error.message` — the failure of the *first*
(`AUTH LOGIN`) attempt. -/
def login (user pass : Option String) (hmacMd5Hex : String → String → String)
    (b64DecodeStr : String → String) (w : Wire) : Except String Bool × Wire :=
  if jsTruthy user && jsTruthy pass then
    let u := jsOrStr user ""
    let p := jsOrStr pass ""
    match runCmds ["AUTH LOGIN", b64 u, b64 p] w with
    | (.ok _, w1) => (.ok true, w1)
    | (.error e1, w1) =>
      match sendCmd ("AUTH PLAIN " ++ b64 ("\x00" ++ u ++ "\x00" ++ p)) w1 with
      | (.ok _, w2) => (.ok true, w2)
      | (.error _, w2) =>
        match authCramMD5 u p hmacMd5Hex b64DecodeStr w2 with
        | (.ok _, w3) => (.ok true, w3)
        | (.error _, w3) => (.error ("Authentication failed: " ++ e1), w3)
  else (.error "Username and password required for authentication", w)

/-! ## Connection lifecycle and the module-level flow of `index.js` -/

/-- `close()`: destroy the socket, reset the flags. -/
def close (w : Wire) : Wire := { w with connected := false }

/-- `connect()`: resolve immediately when already connected, else open
the socket (transport-level success assumed; transport errors and the
timeout are external events not exercised by any claim) and wait for the
220 greeting. -/
def connect (w : Wire) : Except String String × Wire :=
  if w.connected then (.ok "", w)
  else waitGreeting { w with connected := true }

/-- `ehlo()`. -/
def ehlo (host : String) (w : Wire) : Except String String × Wire :=
  sendCmd ("EHLO " ++ host) w

/-- `startTLS()`: the STARTTLS command followed by the TLS re-wrap of
the socket (its success recorded in `Wire.tlsOk`). -/
def startTLS (w : Wire) : Except String Unit × Wire :=
  match sendCmd "STARTTLS" w with
  | (.error e, w1) => (.error e, w1)
  | (.ok _, w1) =>
    if w1.tlsOk then (.ok (), w1) else (.error "TLS handshake failed", w1)

/-- `quit()`: best-effort QUIT whose rejection is swallowed, then
`close()`. -/
def quit (w : Wire) : Except String Unit × Wire :=
  (.ok (), close (sendCmd "QUIT" w).2)

/-- The module-level `sendMail(options, mailOptions)` of `index.js`
(lines 495–514): connect, a *second* `_waitForGreeting()`, EHLO,
STARTTLS+EHLO when unencrypted and advertised (and with no catch: a
STARTTLS failure falls through to the outer catch), login, the
transaction, best-effort QUIT; on any error the client is closed and the
error rethrown. -/
def sendMailFlow (secure : Bool) (user pass : Option String)
    (hmacMd5Hex : String → String → String) (b64DecodeStr : String → String)
    (host : String) (d0 d1 : IdDraw) (date bnd : String) (fromAddr : String)
    (toField : ToField) (subject : String) (text html : Option String)
    (fsRead : String → Option (List Nat)) (attachments : List AttachmentInput)
    (w0 : Wire) : Except String Receipt × Wire :=
  let w := { w0 with connected := false, sent := [] }
  match connect w with
  | (.error e, w) => (.error e, close w)
  | (.ok _, w) =>
    match waitGreeting w with
    | (.error e, w) => (.error e, close w)
    | (.ok _, w) =>
      match ehlo host w with
      | (.error e, w) => (.error e, close w)
      | (.ok ehloResponse, w) =>
        let step : Except String Unit × Wire :=
          if !secure && jsIncludes ehloResponse "STARTTLS" then
            match startTLS w with
            | (.error e, w1) => (.error e, w1)
            | (.ok _, w1) =>
              match ehlo host w1 with
              | (.error e, w2) => (.error e, w2)
              | (.ok _, w2) => (.ok (), w2)
          else (.ok (), w)
        match step with
        | (.error e, w) => (.error e, close w)
        | (.ok _, w) =>
          match login user pass hmacMd5Hex b64DecodeStr w with
          | (.error e, w) => (.error e, close w)
          | (.ok _, w) =>
            match sendMailM d0 d1 host date bnd true fromAddr toField subject
                text html fsRead attachments w with
            | (.error e, w) => (.error e, close w)
            | (.ok result, w) => (.ok result, (quit w).2)

/-! ## Re-parsing MIME boundaries

A container with boundary token `b` is re-parsed by scanning its line
list: the first `--b` opens the first part, each further `--b` starts
the next part, and `--b--` closes the container.  Used to state the
round-trip properties of `_buildMessage`. -/

/-- Collect the parts after the first delimiter: `opn` separates parts,
`cls` ends the container (an unterminated container yields nothing, as
it is not a well-formed MIME body). -/
def mimePartsGo (opn cls : String) : List String → List String → List (List String)
  | [], _ => []
  | l :: rest, cur =>
    if l = cls then [cur.reverse]
    else if l = opn then cur.reverse :: mimePartsGo opn cls rest []
    else mimePartsGo opn cls rest (l :: cur)

/-- The parts of the container with boundary token `b` inside `ls`. -/
def mimeParts (b : String) (ls : List String) : List (List String) :=
  match ls.dropWhile (fun l => decide (l ≠ "--" ++ b)) with
  | [] => []
  | _ :: rest => mimePartsGo ("--" ++ b) ("--" ++ b ++ "--") rest []

/-! ## The first `part_000` variant (`Part0A`)

The compact module at the top of `src/unnamed/part_000`.  Differences
that matter to the claims: its `connect` waits for the greeting exactly
once, its module-level `sendMail` calls
`client.startTLS().catch(() => {})` — swallowing upgrade failure — and
attempts the upgrade whenever `!options.secure`, and its `login` has no
CRAM-MD5 tier. -/

namespace Part0A

/-- `Part0A`'s greeting handler rejects with `Unexpected greeting:`. -/
def greetReplyA (response : String) : Except String String :=
  if jsParseInt (strTake 3 response) = some 220 then .ok response
  else .error ("Unexpected greeting: " ++ response)

/-- `Part0A.connect()`: the greeting is awaited inline in the connect
callback. -/
def connectA (w : Wire) : Except String String × Wire :=
  if w.connected then (.ok "", w)
  else
    match ({ w with connected := true } : Wire).replies with
    | [] => (.error "no reply (connection stalled)", { w with connected := true })
    | r :: rs => (greetReplyA r, { w with connected := true, replies := rs })

/-- `Part0A.login()`: `AUTH LOGIN` then `AUTH PLAIN`; a PLAIN failure
propagates as the raw protocol error (no wrapping, no CRAM tier). -/
def loginA (user pass : Option String) (w : Wire) : Except String Bool × Wire :=
  if jsTruthy user && jsTruthy pass then
    let u := jsOrStr user ""
    let p := jsOrStr pass ""
    match runCmds ["AUTH LOGIN", b64 u, b64 p] w with
    | (.ok _, w1) => (.ok true, w1)
    | (.error _, w1) =>
      match sendCmd ("AUTH PLAIN " ++ b64 ("\x00" ++ u ++ "\x00" ++ p)) w1 with
      | (.ok _, w2) => (.ok true, w2)
      | (.error e2, w2) => (.error e2, w2)
  else (.error "Username and password required for authentication", w)

/-- The extension table of `Part0A._getMimeType`. -/
def mimeTypesA : List (String × String) :=
  [(".txt", "text/plain"), (".html", "text/html"),
   (".js", "application/javascript"), (".json", "application/json"),
   (".pdf", "application/pdf"), (".png", "image/png"),
   (".jpg", "image/jpeg"), (".jpeg", "image/jpeg"), (".gif", "image/gif")]

/-- `Part0A._getMimeType`. -/
def getMimeTypeA (filename : String) : String :=
  match mimeTypesA.lookup (extname filename).toLower with
  | some m => m
  | none => "application/octet-stream"

/-- `Part0A._processAttachment`. -/
def processAttachmentA (fsRead : String → Option (List Nat)) :
    AttachmentInput → Except String AttData
  | .filePath p =>
    match fsRead p with
    | some bytes => .ok ⟨basename p, b64OfBytes bytes, getMimeTypeA p⟩
    | none => .error ("ENOENT: no such file or directory, open " ++ p)
  | .record filename content contentType =>
    match filename, content with
    | some f, some c =>
      if !(f == "") && jsContentTruthy c then
        .ok ⟨f, b64OfBytes (contentBytes c), jsOrStr contentType (getMimeTypeA f)⟩
      else .error "Invalid attachment format"
    | _, _ => .error "Invalid attachment format"

/-- `Part0A._buildMessage` (lines 203–265 of `part_000`); the text/html
single branch is merged (`else if (text || html)`) and pushes
`html || text`. -/
def buildMessageA (d : IdDraw) (host date bnd : String) (fromAddr : String)
    (toAddrs : List String) (subject : String) (text html : Option String)
    (fsRead : String → Option (List Nat)) (attachments : List AttachmentInput) :
    Except String (List String) := do
  let messageId := generateMessageId d host
  let boundary := "boundary_" ++ bnd
  let hdr : List String :=
    ["Message-ID: <" ++ messageId ++ ">",
     "Date: " ++ date,
     "From: " ++ fromAddr,
     "To: " ++ String.intercalate ", " toAddrs,
     "Subject: " ++ subject,
     "MIME-Version: 1.0"]
  let hasAttachments := !attachments.isEmpty
  let hasBothTextAndHtml := jsTruthy text && jsTruthy html
  if hasAttachments || hasBothTextAndHtml then
    let mainB := "main_" ++ boundary
    let altB := "alt_" ++ boundary
    let opening : List String :=
      ["Content-Type: multipart/mixed; boundary=\"" ++ mainB ++ "\"", "",
       "--" ++ mainB]
    let bodyPart : List String :=
      if hasBothTextAndHtml then
        ["Content-Type: multipart/alternative; boundary=\"" ++ altB ++ "\"", "",
         "--" ++ altB,
         "Content-Type: text/plain; charset=\"UTF-8\"",
         "Content-Transfer-Encoding: 7bit", "",
         jsOrStr text "", "",
         "--" ++ altB,
         "Content-Type: text/html; charset=\"UTF-8\"",
         "Content-Transfer-Encoding: 7bit", "",
         jsOrStr html "", "",
         "--" ++ altB ++ "--", "",
         "--" ++ mainB]
      else if jsTruthy text || jsTruthy html then
        ["Content-Type: " ++
           (if jsTruthy html then "text/html" else "text/plain") ++
           "; charset=\"UTF-8\"",
         "Content-Transfer-Encoding: 7bit", "",
         jsOrStr html (jsOrStr text ""), "",
         "--" ++ mainB]
      else []
    let attDatas ← attachments.mapM (processAttachmentA fsRead)
    let blocks := (attDatas.map (attachmentBlock mainB)).flatten
    pure (appendToLast "--" (hdr ++ opening ++ bodyPart ++ blocks))
  else
    pure (hdr ++
      ["Content-Type: " ++
         (if jsTruthy html then "text/html" else "text/plain") ++
         "; charset=\"UTF-8\"",
       "Content-Transfer-Encoding: 7bit", "",
       jsOrStr html (jsOrStr text "")])

/-- `Part0A.sendMail(mailOptions)` (lines 186–201 of `part_000`). -/
def sendMailA (d0 d1 : IdDraw) (host date bnd : String) (authenticated : Bool)
    (fromAddr : String) (toField : ToField) (subject : String)
    (text html : Option String) (fsRead : String → Option (List Nat))
    (attachments : List AttachmentInput) (w : Wire) :
    Except String Receipt × Wire :=
  if authenticated then
    match sendCmd ("MAIL FROM:<" ++ fromAddr ++ ">") w with
    | (.error e, w) => (.error e, w)
    | (.ok _, w) =>
      let recipients := recipientsOf toField
      match runCmds (recipients.map (fun r => "RCPT TO:<" ++ r ++ ">")) w with
      | (.error e, w) => (.error e, w)
      | (.ok _, w) =>
        match sendCmd "DATA" w with
        | (.error e, w) => (.error e, w)
        | (.ok _, w) =>
          match buildMessageA d0 host date bnd fromAddr recipients subject
              text html fsRead attachments with
          | .error e => (.error e, w)
          | .ok lines =>
            match sendCmd (crlfJoin lines ++ "\r\n.") w with
            | (.error e, w) => (.error e, w)
            | (.ok _, w) => (.ok ⟨generateMessageId d1 host, recipients⟩, w)
  else (.error "Not authenticated", w)

/-- The module-level `sendMail` of `Part0A` (lines 322–339 of
`part_000`): `await client.startTLS().catch(() => {})` swallows the
upgrade failure and the flow proceeds over the existing channel. -/
def sendMailFlowA (secure : Bool) (user pass : Option String) (host : String)
    (d0 d1 : IdDraw) (date bnd : String) (fromAddr : String) (toField : ToField)
    (subject : String) (text html : Option String)
    (fsRead : String → Option (List Nat)) (attachments : List AttachmentInput)
    (w0 : Wire) : Except String Receipt × Wire :=
  let w := { w0 with connected := false, sent := [] }
  match connectA w with
  | (.error e, w) => (.error e, close w)
  | (.ok _, w) =>
    match ehlo host w with
    | (.error e, w) => (.error e, close w)
    | (.ok _, w) =>
      let step : Except String Unit × Wire :=
        if !secure then
          match ehlo host (startTLS w).2 with
          | (.error e, w2) => (.error e, w2)
          | (.ok _, w2) => (.ok (), w2)
        else (.ok (), w)
      match step with
      | (.error e, w) => (.error e, close w)
      | (.ok _, w) =>
        match loginA user pass w with
        | (.error e, w) => (.error e, close w)
        | (.ok _, w) =>
          match sendMailA d0 d1 host date bnd true fromAddr toField subject
              text html fsRead attachments w with
          | (.error e, w) => (.error e, close w)
          | (.ok result, w) => (.ok result, (quit w).2)

end Part0A

/-! ## The second `part_000` variant (`Part0B`): embedded images

The module of `part_000` whose `_buildMessage` (lines 610–747) nests a
`multipart/related` container for attachments carrying a `cid`. -/

namespace Part0B

/-- An attachment descriptor as consumed by `Part0B._buildMessage` and
`_getAttachmentContent`. -/
structure AttB where
  filename : Option String := none
  content : Option JsContent := none
  path : Option String := none
  buffer : Option (List Nat) := none
  contentType : Option String := none
  cid : Option String := none
  contentId : Option String := none
deriving Repr, DecidableEq

/-- Truthiness of a possibly-absent content value. -/
def contentTruthy : Option JsContent → Bool
  | none => false
  | some c => jsContentTruthy c

/-- Bytes of a present content value. -/
def bytesOfContent : Option JsContent → List Nat
  | none => []
  | some c => contentBytes c

/-- A calendar event descriptor (`calendarEvent`). -/
structure CalendarEvent where
  content : Option String := none
  method : Option String := none
deriving Repr, DecidableEq

/-- `Part0B._getAttachmentContent`: content, else path (via the
filesystem collaborator), else buffer, else throw. -/
def getAttachmentContent (fsRead : String → Option (List Nat)) (a : AttB) :
    Except String String :=
  if contentTruthy a.content then .ok (b64OfBytes (bytesOfContent a.content))
  else if jsTruthy a.path then
    match fsRead (jsOrStr a.path "") with
    | some bytes => .ok (b64OfBytes bytes)
    | none => .error ("Could not read attachment file: " ++ jsOrStr a.path "")
  else
    match a.buffer with
    | some bs => .ok (b64OfBytes bs)
    | none => .error "Attachment must have content, path, or buffer property"

/-- The lines pushed for one embedded (cid-carrying) attachment. -/
def embeddedBlock (relB : String) (a : AttB) (content : String) : List String :=
  ["", "--" ++ relB,
   "Content-Type: " ++ jsOrStr a.contentType "application/octet-stream",
   "Content-Transfer-Encoding: base64",
   "Content-ID: <" ++ jsOrStr a.cid "" ++ ">",
   "Content-Disposition: inline",
   "", content]

/-- The lines pushed for one regular attachment at the mixed level. -/
def regularBlock (bnd : String) (a : AttB) (content : String) : List String :=
  ["", "--" ++ bnd,
   "Content-Type: " ++ jsOrStr a.contentType "application/octet-stream",
   "Content-Transfer-Encoding: base64",
   "Content-Disposition: attachment; filename=\"" ++ jsOrStr a.filename "file" ++ "\""]
  ++ (if jsTruthy a.contentId
      then ["Content-ID: <" ++ jsOrStr a.contentId "" ++ ">"] else [])
  ++ ["", content]

/-- `Part0B._buildMessage` (lines 610–747 of `part_000`): custom
headers, priority and read-receipt headers, optional calendar part,
`multipart/related` nesting for embedded images, regular attachments at
the `multipart/mixed` level. -/
def buildMessageB (d : IdDraw) (host date : String)
    (bRand relRand altRand : String) (fromAddr : String) (toAddrs : List String)
    (subject : String) (text html : Option String) (attachments : List AttB)
    (headers : List (String × String)) (priority : Option String)
    (readReceipt : Option String) (calendarEvent : Option CalendarEvent)
    (fsRead : String → Option (List Nat)) : Except String (List String) := do
  let messageId := generateMessageId d host
  let boundary := "boundary_" ++ bRand
  let relatedBoundary := "related_" ++ relRand
  let alternativeBoundary := "alternative_" ++ altRand
  let hdr : List String :=
    ["Message-ID: <" ++ messageId ++ ">",
     "Date: " ++ date,
     "From: " ++ fromAddr,
     "To: " ++ String.intercalate ", " toAddrs,
     "Subject: " ++ subject,
     "MIME-Version: 1.0"]
  let customHdrs := headers.map (fun kv => kv.1 ++ ": " ++ kv.2)
  let priorityHdrs :=
    if jsTruthy priority then
      let pr := jsOrStr priority ""
      let pv :=
        if pr == "high" then "1 (High)"
        else if pr == "normal" then "3 (Normal)"
        else if pr == "low" then "5 (Low)"
        else "3 (Normal)"
      ["Priority: " ++ pv, "X-Priority: " ++ pv, "Importance: " ++ pr]
    else []
  let receiptHdrs :=
    if jsTruthy readReceipt then
      let rr := jsOrStr readReceipt ""
      ["Disposition-Notification-To: " ++ rr,
       "X-Confirm-Reading-To: " ++ rr,
       "Return-Receipt-To: 1"]
    else []
  let hasAttachments := !attachments.isEmpty
  let hasEmbeddedImages := jsTruthy html && jsIncludes (jsOrStr html "") "cid:"
  let hasCalendarEvent :=
    match calendarEvent with
    | some ce => jsTruthy ce.content
    | none => false
  let anyContainer := hasAttachments || hasEmbeddedImages || hasCalendarEvent
  let mixedOpen :=
    if anyContainer then
      ["Content-Type: multipart/mixed; boundary=\"" ++ boundary ++ "\"", "",
       "--" ++ boundary]
    else []
  let calBlock :=
    if hasCalendarEvent then
      let ce := calendarEvent.getD {}
      ["Content-Type: text/calendar; method=" ++ jsOrStr ce.method "REQUEST" ++
         "; charset=\"UTF-8\"",
       "Content-Transfer-Encoding: base64", "",
       b64 (jsOrStr ce.content ""), "",
       "--" ++ boundary]
    else []
  let relOpen :=
    if hasEmbeddedImages then
      ["Content-Type: multipart/related; boundary=\"" ++ relatedBoundary ++ "\"",
       "", "--" ++ relatedBoundary]
    else []
  let bodyBlock :=
    if jsTruthy html && jsTruthy text then
      ["Content-Type: multipart/alternative; boundary=\"" ++
         alternativeBoundary ++ "\"", "",
       "--" ++ alternativeBoundary,
       "Content-Type: text/plain; charset=\"UTF-8\"",
       "Content-Transfer-Encoding: 7bit", "",
       jsOrStr text "", "",
       "--" ++ alternativeBoundary,
       "Content-Type: text/html; charset=\"UTF-8\"",
       "Content-Transfer-Encoding: 7bit", "",
       jsOrStr html "", "",
       "--" ++ alternativeBoundary ++ "--"]
    else if jsTruthy html then
      ["Content-Type: text/html; charset=\"UTF-8\"",
       "Content-Transfer-Encoding: 7bit", "",
       jsOrStr html ""]
    else
      ["Content-Type: text/plain; charset=\"UTF-8\"",
       "Content-Transfer-Encoding: 7bit", "",
       jsOrStr text ""]
  let embBlocks ←
    if hasEmbeddedImages then do
      let embedded := attachments.filter (fun a => jsTruthy a.cid)
      let blocks ← embedded.mapM (fun a => do
        let c ← getAttachmentContent fsRead a
        pure (embeddedBlock relatedBoundary a c))
      pure (blocks.flatten ++ ["", "--" ++ relatedBoundary ++ "--"])
    else pure []
  let regBlocks ←
    if hasAttachments then do
      let regular := attachments.filter (fun a => !(jsTruthy a.cid))
      let blocks ← regular.mapM (fun a => do
        let c ← getAttachmentContent fsRead a
        pure (regularBlock boundary a c))
      pure blocks.flatten
    else pure []
  let closing := if anyContainer then ["", "--" ++ boundary ++ "--"] else []
  pure (hdr ++ customHdrs ++ priorityHdrs ++ receiptHdrs ++ mixedOpen ++
        calBlock ++ relOpen ++ bodyBlock ++ embBlocks ++ regBlocks ++ closing)

end Part0B

/-- Unfolding equation for `splitCRLF` on a cons cell that does not
start with the CRLF pair. -/
theorem splitCRLF_cons_eq (c : Char) (rest : List Char)
    (h : ∀ r', c = '\r' → rest = '\n' :: r' → False) :
    splitCRLF (c :: rest) =
      match splitCRLF rest with
      | [] => [[c]]
      | l :: ls => (c :: l) :: ls := by
  rw [splitCRLF.eq_def]
  split
  · simp_all
  · rename_i rest' heq
    injection heq with h1 h2
    exact absurd trivial (fun _ => h rest' h1 h2)
  · rename_i c' rest' hcr heq
    injection heq with h1 h2
    subst h1; subst h2
    rfl

theorem splitCRLF_ne_nil (l : List Char) : splitCRLF l ≠ [] := by
  induction l using splitCRLF.induct with
  | case1 => simp [splitCRLF]
  | case2 rest ih => simp [splitCRLF]
  | case3 c rest h hnil ih =>
    rw [splitCRLF_cons_eq c rest h, hnil]
    simp
  | case4 c rest h l ls hsplit ih =>
    rw [splitCRLF_cons_eq c rest h, hsplit]
    simp

/-- A split with a single piece means the input had no CRLF: the piece
is the whole input. -/
theorem splitCRLF_eq_singleton {l m : List Char} (h : splitCRLF l = [m]) : m = l := by
  induction l using splitCRLF.induct generalizing m with
  | case1 => simp [splitCRLF] at h; exact h
  | case2 rest ih =>
    simp [splitCRLF] at h
    exact absurd h.2 (splitCRLF_ne_nil rest)
  | case3 c rest hg hnil ih =>
    exact absurd hnil (splitCRLF_ne_nil rest)
  | case4 c rest hg p ps hsplit ih =>
    rw [splitCRLF_cons_eq c rest hg, hsplit] at h
    simp at h
    obtain ⟨hm, hps⟩ := h
    subst hps
    have : p = rest := ih hsplit
    subst this
    exact hm.symm

/-- The complete lines of `x` survive unchanged when more input `y` is
appended; only the trailing partial piece of `x` interacts with `y`.
This is the key fact behind chunk-invariance of the framer. -/
theorem splitCRLF_append (x y : List Char) :
    splitCRLF (x ++ y) =
      (splitCRLF x).dropLast ++ splitCRLF ((splitCRLF x).getLastD [] ++ y) := by
  induction x using splitCRLF.induct with
  | case1 => simp [splitCRLF]
  | case2 rest ih =>
    have hne := splitCRLF_ne_nil rest
    obtain ⟨s, ss, hS⟩ : ∃ s ss, splitCRLF rest = s :: ss := by
      cases hq : splitCRLF rest with
      | nil => exact absurd hq hne
      | cons a b => exact ⟨a, b, rfl⟩
    show splitCRLF ('\r' :: '\n' :: (rest ++ y)) = _
    rw [show splitCRLF ('\r' :: '\n' :: (rest ++ y)) = [] :: splitCRLF (rest ++ y) from rfl]
    rw [show splitCRLF ('\r' :: '\n' :: rest) = [] :: splitCRLF rest from rfl]
    rw [ih, hS]
    simp [List.getLastD_cons]
  | case3 c rest hg hnil ih =>
    exact absurd hnil (splitCRLF_ne_nil rest)
  | case4 c rest hg p ps hsplit ih =>
    rw [splitCRLF_cons_eq c rest hg, hsplit]
    cases ps with
    | nil =>
      have hpr : p = rest := splitCRLF_eq_singleton hsplit
      subst hpr
      simp
    | cons q qs =>
      have hg' : ∀ r', c = '\r' → rest ++ y = '\n' :: r' → False := by
        intro r' hc hry
        cases rest with
        | nil => simp [splitCRLF] at hsplit
        | cons r0 rs =>
          injection hry with h1 h2
          exact hg rs hc (by rw [h1])
      rw [List.cons_append, splitCRLF_cons_eq c (rest ++ y) hg']
      rw [ih, hsplit]
      have hne2 := splitCRLF_ne_nil ((qs.getLastD q) ++ y)
      cases hq2 : splitCRLF ((p :: q :: qs).getLastD [] ++ y) with
      | nil => exact absurd hq2 (by simp [List.getLastD_cons]; exact splitCRLF_ne_nil _)
      | cons w ws =>
        simp only [List.getLastD_cons] at hq2 ⊢
        rw [hq2]
        simp [List.dropLast_cons_of_ne_nil]

theorem getLastD_append_right (A S : List (List Char)) (h : S ≠ []) :
    (A ++ S).getLastD [] = S.getLastD [] := by
  have hs : S.getLast?.isSome := by
    cases S with
    | nil => exact absurd rfl h
    | cons a l => simp [List.getLast?_cons]
  obtain ⟨a, ha⟩ := Option.isSome_iff_exists.mp hs
  simp [List.getLastD_eq_getLast?, List.getLast?_append, ha]

/-- The retained buffer piece contains no CRLF, so re-splitting it
yields it back whole: partial data is never consumed twice nor lost. -/
theorem splitCRLF_getLastD_self (l : List Char) :
    splitCRLF ((splitCRLF l).getLastD []) = [(splitCRLF l).getLastD []] := by
  induction l using splitCRLF.induct with
  | case1 => simp [splitCRLF]
  | case2 rest ih =>
    have hne := splitCRLF_ne_nil rest
    obtain ⟨s, ss, hS⟩ : ∃ s ss, splitCRLF rest = s :: ss := by
      cases hq : splitCRLF rest with
      | nil => exact absurd hq hne
      | cons a b => exact ⟨a, b, rfl⟩
    rw [show splitCRLF ('\r' :: '\n' :: rest) = [] :: splitCRLF rest from rfl, hS]
    rw [hS] at ih
    simpa [List.getLastD_cons] using ih
  | case3 c rest hg hnil ih =>
    exact absurd hnil (splitCRLF_ne_nil rest)
  | case4 c rest hg p ps hsplit ih =>
    rw [splitCRLF_cons_eq c rest hg, hsplit]
    cases ps with
    | nil =>
      obtain rfl : p = rest := splitCRLF_eq_singleton hsplit
      simp only [List.getLastD_cons, List.getLastD_nil]
      rw [splitCRLF_cons_eq _ _ hg, hsplit]
    | cons q qs =>
      rw [hsplit] at ih
      simp only [List.getLastD_cons] at ih ⊢
      exact ih

/-- Normal form of a framer run: the delivered lines are exactly the
non-blank complete lines of the concatenated stream, and the final
buffer is exactly the text after the last CRLF. -/
theorem runFramerFrom_eq (chunks : List (List Char)) (buf : List Char)
    (hbuf : splitCRLF buf = [buf]) :
    runFramerFrom buf chunks =
      ((splitCRLF (buf ++ chunks.flatten)).dropLast.filter jsNonBlank,
       (splitCRLF (buf ++ chunks.flatten)).getLastD []) := by
  induction chunks generalizing buf with
  | nil => simp [runFramerFrom, hbuf]
  | cons c cs ih =>
    have hB' : splitCRLF ((splitCRLF (buf ++ c)).getLastD []) =
        [(splitCRLF (buf ++ c)).getLastD []] := splitCRLF_getLastD_self (buf ++ c)
    have hne : splitCRLF ((splitCRLF (buf ++ c)).getLastD [] ++ cs.flatten) ≠ [] :=
      splitCRLF_ne_nil _
    have hflat : buf ++ (c :: cs).flatten = (buf ++ c) ++ cs.flatten := by
      simp [List.flatten_cons]
    simp only [runFramerFrom, processChunk, ih _ hB']
    rw [hflat, splitCRLF_append (buf ++ c) cs.flatten]
    rw [List.dropLast_append_of_ne_nil _ hne]
    rw [getLastD_append_right _ _ hne]
    simp [List.filter_append]

/-! ## Stepping lemmas for the wire -/

/-- `classifyReply` either resolves with the raw reply or rejects with
`SMTP Error:` plus the raw reply; there is no third outcome. -/
theorem classifyReply_cases (r : String) :
    classifyReply r = .ok r ∨ classifyReply r = .error ("SMTP Error: " ++ r) := by
  unfold classifyReply
  split
  · split
    · exact Or.inl rfl
    · exact Or.inr rfl
  · exact Or.inr rfl

theorem classifyReply_eq_ok {r : String} (h : replyOk r = true) :
    classifyReply r = .ok r := by
  rcases classifyReply_cases r with hc | hc
  · exact hc
  · rw [replyOk, hc] at h
    simp [Except.isOk, Except.toBool] at h

theorem classifyReply_eq_err {r : String} (h : replyOk r = false) :
    classifyReply r = .error ("SMTP Error: " ++ r) := by
  rcases classifyReply_cases r with hc | hc
  · rw [replyOk, hc] at h
    simp [Except.isOk, Except.toBool] at h
  · exact hc

theorem sendCmd_ok_eq (cmd r : String) (rs : List String) (t : Bool)
    (sent : List String) (hr : replyOk r = true) :
    sendCmd cmd ⟨true, r :: rs, t, sent⟩ = (.ok r, ⟨true, rs, t, sent ++ [cmd]⟩) := by
  simp [sendCmd, classifyReply_eq_ok hr]

theorem sendCmd_err_eq (cmd r : String) (rs : List String) (t : Bool)
    (sent : List String) (hr : replyOk r = false) :
    sendCmd cmd ⟨true, r :: rs, t, sent⟩ =
      (.error ("SMTP Error: " ++ r), ⟨true, rs, t, sent ++ [cmd]⟩) := by
  simp [sendCmd, classifyReply_eq_err hr]

/-- A run of commands against all-successful replies consumes one reply
per command and appends every command to the transcript. -/
theorem runCmds_all_ok (cmds : List String) (good rest : List String) (t : Bool)
    (sent : List String) (hlen : good.length = cmds.length)
    (hok : ∀ r ∈ good, replyOk r = true) :
    runCmds cmds ⟨true, good ++ rest, t, sent⟩ = (.ok (), ⟨true, rest, t, sent ++ cmds⟩) := by
  induction cmds generalizing good sent with
  | nil =>
    cases good with
    | nil => simp [runCmds]
    | cons g gs => simp at hlen
  | cons c cs ih =>
    cases good with
    | nil => simp at hlen
    | cons g gs =>
      simp only [List.length_cons, Nat.add_right_cancel_iff] at hlen
      have hg : replyOk g = true := hok g (List.mem_cons_self g gs)
      simp only [runCmds, List.cons_append, sendCmd_ok_eq c g (gs ++ rest) t sent hg]
      rw [ih gs (sent ++ [c]) hlen (fun r hr => hok r (List.mem_cons_of_mem g hr))]
      simp

/-- A run of commands aborts at the first rejected reply: the commands
after the failing one are never written. -/
theorem runCmds_abort (pre post : List String) (c : String) (good rest : List String)
    (bad : String) (t : Bool) (sent : List String) (hlen : good.length = pre.length)
    (hok : ∀ r ∈ good, replyOk r = true) (hbad : replyOk bad = false) :
    runCmds (pre ++ c :: post) ⟨true, good ++ bad :: rest, t, sent⟩ =
      (.error ("SMTP Error: " ++ bad), ⟨true, rest, t, sent ++ pre ++ [c]⟩) := by
  induction pre generalizing good sent with
  | nil =>
    cases good with
    | cons g gs => simp at hlen
    | nil =>
      rw [List.nil_append, List.nil_append, runCmds,
        sendCmd_err_eq c bad rest t sent hbad]
      simp
  | cons p ps ih =>
    cases good with
    | nil => simp at hlen
    | cons g gs =>
      simp only [List.length_cons, Nat.add_right_cancel_iff] at hlen
      have hg : replyOk g = true := hok g (List.mem_cons_self g gs)
      simp only [List.cons_append, runCmds,
        sendCmd_ok_eq p g (gs ++ bad :: rest) t sent hg]
      have hrec := ih gs (sent ++ [p]) hlen
        (fun r hr => hok r (List.mem_cons_of_mem g hr))
      simpa using hrec

/-- Splitting a command run at an append boundary. -/
theorem runCmds_append (xs ys : List String) (w : Wire) :
    runCmds (xs ++ ys) w =
      match runCmds xs w with
      | (.ok _, w') => runCmds ys w'
      | (.error e, w') => (.error e, w') := by
  induction xs generalizing w with
  | nil => simp [runCmds]
  | cons x xs ih =>
    rw [List.cons_append, runCmds, runCmds]
    cases hx : sendCmd x w with
    | mk res w' =>
      cases res with
      | ok v => exact ih w'
      | error e => rfl

/-! ## Claim C6 — chunk-invariance of the line framer (corrected)

The framer is invariant in how the *decoded character stream* is
chunked, but not in how the *byte stream* is chunked: `_onData` decodes
each chunk independently (`this.buffer += data.toString()`), so a byte
partition that splits a multi-byte UTF-8 character turns the fragments
into U+FFFD and changes the emitted lines. -/

/-- Invariance at the character level: two chunkings with the same
concatenated character stream produce identical framer output. -/
theorem framer_chunk_invariance (c1 c2 : List (List Char))
    (h : c1.flatten = c2.flatten) : runFramer c1 = runFramer c2 := by
  unfold runFramer
  rw [runFramerFrom_eq c1 [] rfl, runFramerFrom_eq c2 [] rfl, h]

/-- C6 as stated — over *every* partition of the byte stream — is
false: the byte stream `C3 A9 0D 0A 78` (UTF-8 for `é\r\nx`) delivered
as one chunk emits the line `é`, but partitioned as `[C3] | [A9 0D 0A
78]` — splitting the two-byte character — each fragment decodes to
U+FFFD and the framer emits the different line `��`. -/
theorem framer_byte_chunk_variance :
    ([[0xC3, 0xA9, 0x0D, 0x0A, 0x78]] : List (List Nat)).flatten
        = ([[0xC3], [0xA9, 0x0D, 0x0A, 0x78]] : List (List Nat)).flatten ∧
    (runFramerBytes [[0xC3, 0xA9, 0x0D, 0x0A, 0x78]]).1
        = [[Char.ofNat 0xE9]] ∧
    (runFramerBytes [[0xC3], [0xA9, 0x0D, 0x0A, 0x78]]).1
        = [[Char.ofNat 0xFFFD, Char.ofNat 0xFFFD]] ∧
    runFramerBytes [[0xC3, 0xA9, 0x0D, 0x0A, 0x78]]
        ≠ runFramerBytes [[0xC3], [0xA9, 0x0D, 0x0A, 0x78]] := by
  decide

/-- C6 (amended): for every byte stream and every two partitions of it
into chunks whose independent per-chunk UTF-8 decodes concatenate to
the same character stream — in particular any two partitions whose cut
points fall on character boundaries — feeding the chunks of either
partition to the line framer in order produces the identical ordered
sequence of emitted lines and the identical retained buffer.  (Byte
partitions that split a multi-byte character are excluded: each chunk
is decoded independently by `data.toString()`, so the fragments become
U+FFFD and the emitted lines change.) -/
theorem framer_byte_chunk_invariance (c1 c2 : List (List Nat))
    (h : (c1.map utf8DecodeBytes).flatten = (c2.map utf8DecodeBytes).flatten) :
    runFramerBytes c1 = runFramerBytes c2 :=
  framer_chunk_invariance _ _ h

/-- Witness for C6 (amended): the byte stream of `220 hi\r\n250
ok\r\nrest` chunked in two different ways — including a split in the
middle of the CRLF pair, a cut on a character boundary — produces
identical framer output. -/
theorem framer_byte_chunk_invariance_witness :
    (([(utf8Bytes "220 hi\r"), (utf8Bytes "\n250 ok\r\nrest")].map
        utf8DecodeBytes).flatten
      = ([(utf8Bytes "220 hi\r\n250 ok\r\nrest")].map utf8DecodeBytes).flatten) ∧
    runFramerBytes [(utf8Bytes "220 hi\r"), (utf8Bytes "\n250 ok\r\nrest")]
      = runFramerBytes [(utf8Bytes "220 hi\r\n250 ok\r\nrest")] :=
  ⟨by decide,
   framer_byte_chunk_invariance
     [(utf8Bytes "220 hi\r"), (utf8Bytes "\n250 ok\r\nrest")]
     [(utf8Bytes "220 hi\r\n250 ok\r\nrest")] (by decide)⟩

/-! ## Claim C5 — blank lines (corrected) -/

/-- C5 as stated is false: the stream `250 a\r\n\r\n250 b\r\nxy`
contains a zero-length line (two consecutive CRLF sequences), which is a
complete line of the stream (second conjunct), yet it is not delivered
to the response-handling layer (third conjunct) because of the
`if (line.trim())` guard in `_processBuffer`; only the two non-blank
lines are delivered.  (The partial tail `xy` is indeed retained.) -/
theorem framer_blank_line_dropped :
    (splitCRLF ("250 a\r\n\r\n250 b\r\nxy".data)).dropLast
        = ["250 a".data, [], "250 b".data] ∧
    (runFramer ["250 a\r\n\r\n250 b\r\nxy".data]).1
        = ["250 a".data, "250 b".data] ∧
    ([] : List Char) ∉ (runFramer ["250 a\r\n\r\n250 b\r\nxy".data]).1 ∧
    (runFramer ["250 a\r\n\r\n250 b\r\nxy".data]).2 = "xy".data := by
  decide

/-- C5 (amended): for every chunking of an input byte stream, the framer
delivers exactly the complete CRLF-terminated lines whose `trim()` is
non-empty — blank (whitespace-only) lines, including zero-length lines
arising from two consecutive CRLF sequences, are dropped, not delivered —
and the partial data after the last CRLF is retained in the buffer,
never discarded across chunk boundaries. -/
theorem framer_delivery (chunks : List (List Char)) :
    (runFramer chunks).1
        = ((splitCRLF chunks.flatten).dropLast).filter jsNonBlank ∧
    (∀ l ∈ (runFramer chunks).1, jsNonBlank l = true) ∧
    (runFramer chunks).2 = (splitCRLF chunks.flatten).getLastD [] := by
  have h := runFramerFrom_eq chunks [] rfl
  simp only [List.nil_append] at h
  unfold runFramer
  rw [h]
  refine ⟨rfl, ?_, rfl⟩
  intro l hl
  exact List.of_mem_filter hl

/-! ## Claim C3 — the pending-handler slot (corrected) -/

/-- C3 as stated is false: in a connected session with a handler still
pending for command `NOOP-A`, `_sendCommand` for a second command
`NOOP-B` is neither rejected nor deferred — the command is issued (the
write happens, first conjunct) and the pending handler is silently
replaced by the new one (second and third conjuncts). -/
theorem second_command_replaces_pending_handler :
    (sendCommandRegister ⟨true, some "NOOP-A", []⟩ "NOOP-B").2 = true ∧
    (sendCommandRegister ⟨true, some "NOOP-A", []⟩ "NOOP-B").1.currentHandler
        = some "NOOP-B" ∧
    (some "NOOP-B" : Option String) ≠ some "NOOP-A" := by
  decide

/-- C3 (amended): the session stores at most one pending handler — the
single `currentHandler` slot, consumed atomically by `_handleResponse`,
while the constructor's `responseHandlers` array is never touched — but
a second command issued while a reply is pending is not rejected or
deferred: `_sendCommand` silently overwrites the pending handler, and
single-outstanding operation is maintained only by callers awaiting each
command before issuing the next. -/
theorem handler_slot_single (s : Session) (cmd line : String) :
    (sendCommandRegister s cmd).1.responseHandlers = s.responseHandlers ∧
    (handleResponse s line).1.responseHandlers = s.responseHandlers ∧
    (handleResponse s line).1.currentHandler = none ∧
    (s.connected = true →
      (sendCommandRegister s cmd).1.currentHandler = some cmd) := by
  unfold sendCommandRegister handleResponse
  refine ⟨?_, ?_, ?_, ?_⟩
  · split <;> rfl
  · cases s.currentHandler <;> rfl
  · cases h : s.currentHandler <;> simp [h]
  · intro hc
    simp [hc]

/-- Witness for C3 (amended) at a concrete pending session. -/
theorem handler_slot_single_witness :
    (sendCommandRegister ⟨true, some "EHLO host", []⟩ "AUTH LOGIN").1.currentHandler
      = some "AUTH LOGIN" :=
  (handler_slot_single ⟨true, some "EHLO host", []⟩ "AUTH LOGIN" "250 ok").2.2.2 rfl

/-! ## Claim C7 — reply classification -/

theorem isDigitC_toNat {c : Char} (h : isDigitC c = true) :
    48 ≤ c.toNat ∧ c.toNat ≤ 57 := by
  simpa [isDigitC] using h

theorem isDigitC_not_space {c : Char} (h : isDigitC c = true) :
    isJsSpace c = false := by
  have hn := isDigitC_toNat h
  simp only [isJsSpace, Bool.or_eq_false_iff]
  refine ⟨⟨⟨⟨⟨?_, ?_⟩, ?_⟩, ?_⟩, ?_⟩, ?_⟩ <;>
    (simp only [decide_eq_false_iff_not]; intro he; subst he;
     exact absurd hn (by decide))

theorem isDigitC_ne_dash {c : Char} (h : isDigitC c = true) : ¬(c = '-') := by
  intro he; subst he; exact absurd (isDigitC_toNat h) (by decide)

theorem isDigitC_ne_plus {c : Char} (h : isDigitC c = true) : ¬(c = '+') := by
  intro he; subst he; exact absurd (isDigitC_toNat h) (by decide)

/-- `parseInt` on a three-digit string yields the decimal value. -/
theorem jsParseInt_three_digits (d1 d2 d3 : Char)
    (h1 : isDigitC d1 = true) (h2 : isDigitC d2 = true) (h3 : isDigitC d3 = true) :
    jsParseInt ⟨[d1, d2, d3]⟩ =
      some ((100 * digitVal d1 + 10 * digitVal d2 + digitVal d3 : Nat) : Int) := by
  unfold jsParseInt
  have hdrop : ([d1, d2, d3] : List Char).dropWhile isJsSpace = [d1, d2, d3] := by
    simp [List.dropWhile_cons, isDigitC_not_space h1]
  simp only [hdrop]
  rw [if_neg (isDigitC_ne_dash h1), if_neg (isDigitC_ne_plus h1)]
  have htake : ([d1, d2, d3] : List Char).takeWhile isDigitC = [d1, d2, d3] := by
    simp [List.takeWhile_cons, h1, h2, h3]
  simp only [parseDigits, htake]
  simp [digitsToNat, List.foldl]
  omega

/-- C7: for every reply line beginning with a 3-digit status code, the
installed handler resolves the command's promise exactly when the code
is in 200–399; otherwise it rejects with an error carrying the raw reply
text; and the two outcomes are mutually exclusive (the result is exactly
one of resolve/reject). -/
theorem reply_classification (r : String) (d1 d2 d3 : Char) (rest : List Char)
    (hr : r.data = d1 :: d2 :: d3 :: rest)
    (h1 : isDigitC d1 = true) (h2 : isDigitC d2 = true) (h3 : isDigitC d3 = true) :
    ((classifyReply r = .ok r) ↔
      (200 ≤ 100 * digitVal d1 + 10 * digitVal d2 + digitVal d3 ∧
        100 * digitVal d1 + 10 * digitVal d2 + digitVal d3 < 400)) ∧
    (¬(200 ≤ 100 * digitVal d1 + 10 * digitVal d2 + digitVal d3 ∧
        100 * digitVal d1 + 10 * digitVal d2 + digitVal d3 < 400) →
      classifyReply r = .error ("SMTP Error: " ++ r)) ∧
    ¬(classifyReply r = .ok r ∧
      classifyReply r = .error ("SMTP Error: " ++ r)) := by
  have htake : strTake 3 r = ⟨[d1, d2, d3]⟩ := by
    simp [strTake, hr]
  have hparse := jsParseInt_three_digits d1 d2 d3 h1 h2 h3
  simp only [classifyReply, htake, hparse]
  have hcond : (200 ≤ ((100 * digitVal d1 + 10 * digitVal d2 + digitVal d3 : Nat) : Int) ∧
      ((100 * digitVal d1 + 10 * digitVal d2 + digitVal d3 : Nat) : Int) < 400) ↔
      (200 ≤ 100 * digitVal d1 + 10 * digitVal d2 + digitVal d3 ∧
       100 * digitVal d1 + 10 * digitVal d2 + digitVal d3 < 400) := by
    constructor <;> (intro h; exact ⟨by exact_mod_cast h.1, by exact_mod_cast h.2⟩)
  by_cases hc : 200 ≤ 100 * digitVal d1 + 10 * digitVal d2 + digitVal d3 ∧
      100 * digitVal d1 + 10 * digitVal d2 + digitVal d3 < 400
  · rw [if_pos (hcond.mpr hc)]
    refine ⟨by simp [hc], fun hcon => absurd hc hcon, ?_⟩
    rintro ⟨_, hbad⟩
    exact Except.noConfusion hbad
  · rw [if_neg (fun h => hc (hcond.mp h))]
    refine ⟨?_, fun _ => rfl, ?_⟩
    · constructor
      · intro hbad
        exact Except.noConfusion hbad
      · intro h
        exact absurd h hc
    · rintro ⟨hbad, _⟩
      exact Except.noConfusion hbad

/-- Witness for C7 at the replies `250 ok` (resolves) and `550 no`
(rejects with the raw text). -/
theorem reply_classification_witness :
    classifyReply "250 ok" = .ok "250 ok" ∧
    classifyReply "550 no" = .error "SMTP Error: 550 no" :=
  ⟨((reply_classification "250 ok" '2' '5' '0' " ok".data (by decide)
      (by decide) (by decide) (by decide)).1).mpr (by decide),
   (reply_classification "550 no" '5' '5' '0' " no".data (by decide)
      (by decide) (by decide) (by decide)).2.1 (by decide)⟩

/-! ## Claim C2 — authentication mechanism order and the final error -/

/-- C2 as stated is false in its last part: exhausting all mechanisms
(LOGIN rejected `504 a`, PLAIN rejected `535 b`, CRAM-MD5 rejected
`504 c`) raises `Authentication failed: SMTP Error: 504 a` — the failure
of the *first*-attempted mechanism (`AUTH LOGIN`, whose catch binding
`error` is what `login` interpolates), not the failure
`SMTP Error: 504 c` of the last-attempted mechanism (CRAM-MD5, third
conjunct), and those two messages differ (fourth conjunct). -/
theorem auth_error_cites_first_mechanism :
    (login (some "user") (some "pass") (fun _ _ => "0123abcd") (fun s => s)
        ⟨true, ["504 a", "535 b", "504 c"], true, []⟩).1
      = .error "Authentication failed: SMTP Error: 504 a" ∧
    (login (some "user") (some "pass") (fun _ _ => "0123abcd") (fun s => s)
        ⟨true, ["504 a", "535 b", "504 c"], true, []⟩).2.sent
      = ["AUTH LOGIN", "AUTH PLAIN AHVzZXIAcGFzcw==", "AUTH CRAM-MD5"] ∧
    classifyReply "504 c" = .error "SMTP Error: 504 c" ∧
    ("Authentication failed: SMTP Error: 504 a" : String)
      ≠ "Authentication failed: SMTP Error: 504 c" := by
  decide

/-- C2 (amended): authentication attempts mechanisms in the fixed order
`AUTH LOGIN` (three command/reply round trips: the command, the base64
username, the base64 password), then `AUTH PLAIN` (one command carrying
base64 of NUL+username+NUL+password), then `AUTH CRAM-MD5`; any
mechanism's failure falls through to the next, and when all mechanisms
are exhausted the raised error is an Authentication error referencing
the failure of the *first*-attempted mechanism (`AUTH LOGIN`), not a raw
Protocol error. -/
theorem auth_mechanism_order (u p : String) (hu : ¬(u = "")) (hp : ¬(p = ""))
    (hmac : String → String → String) (bdec : String → String) (t : Bool) :
    (∀ r1 r2 r3 rest, replyOk r1 = true → replyOk r2 = true → replyOk r3 = true →
      login (some u) (some p) hmac bdec ⟨true, r1 :: r2 :: r3 :: rest, t, []⟩
        = (.ok true, ⟨true, rest, t, ["AUTH LOGIN", b64 u, b64 p]⟩)) ∧
    (∀ r1 r2 rest, replyOk r1 = false → replyOk r2 = true →
      login (some u) (some p) hmac bdec ⟨true, r1 :: r2 :: rest, t, []⟩
        = (.ok true, ⟨true, rest, t,
            ["AUTH LOGIN", "AUTH PLAIN " ++ b64 ("\x00" ++ u ++ "\x00" ++ p)]⟩)) ∧
    (∀ r1 r2 r3 rest, replyOk r1 = false → replyOk r2 = false → replyOk r3 = false →
      login (some u) (some p) hmac bdec ⟨true, r1 :: r2 :: r3 :: rest, t, []⟩
        = (.error ("Authentication failed: " ++ ("SMTP Error: " ++ r1)),
           ⟨true, rest, t,
            ["AUTH LOGIN", "AUTH PLAIN " ++ b64 ("\x00" ++ u ++ "\x00" ++ p),
             "AUTH CRAM-MD5"]⟩)) := by
  have hut : jsTruthy (some u) = true := by simp [jsTruthy, hu]
  have hpt : jsTruthy (some p) = true := by simp [jsTruthy, hp]
  have huo : jsOrStr (some u) "" = u := by simp [jsOrStr, hu]
  have hpo : jsOrStr (some p) "" = p := by simp [jsOrStr, hp]
  refine ⟨?_, ?_, ?_⟩
  · intro r1 r2 r3 rest h1 h2 h3
    have hrun := runCmds_all_ok ["AUTH LOGIN", b64 u, b64 p] [r1, r2, r3] rest t []
      (by simp)
      (by
        intro r hr
        simp only [List.mem_cons, List.not_mem_nil, or_false] at hr
        rcases hr with rfl | rfl | rfl
        exacts [h1, h2, h3])
    simp only [login, hut, hpt, Bool.and_self, if_pos, huo, hpo]
    rw [show r1 :: r2 :: r3 :: rest = [r1, r2, r3] ++ rest from rfl]
    simp only [hrun]
    simp
  · intro r1 r2 rest h1 h2
    have habort := runCmds_abort [] [b64 u, b64 p] "AUTH LOGIN" [] (r2 :: rest)
      r1 t [] rfl (by intro r hr; simp at hr) h1
    simp only [List.nil_append] at habort
    simp only [login, hut, hpt, Bool.and_self, if_pos, huo, hpo]
    simp only [habort,
      sendCmd_ok_eq ("AUTH PLAIN " ++ b64 ("\x00" ++ u ++ "\x00" ++ p))
        r2 rest t ["AUTH LOGIN"] h2]
    simp
  · intro r1 r2 r3 rest h1 h2 h3
    have habort := runCmds_abort [] [b64 u, b64 p] "AUTH LOGIN" []
      (r2 :: r3 :: rest) r1 t [] rfl (by intro r hr; simp at hr) h1
    simp only [List.nil_append] at habort
    simp only [login, hut, hpt, Bool.and_self, if_pos, huo, hpo]
    simp only [habort,
      sendCmd_err_eq ("AUTH PLAIN " ++ b64 ("\x00" ++ u ++ "\x00" ++ p))
        r2 (r3 :: rest) t ["AUTH LOGIN"] h2,
      authCramMD5]
    simp [sendCmd_err_eq "AUTH CRAM-MD5" r3 rest t
      ["AUTH LOGIN", "AUTH PLAIN " ++ b64 ("\x00" ++ u ++ "\x00" ++ p)] h3]

/-- Witness for C2 (amended): full exhaustion on a concrete script. -/
theorem auth_mechanism_order_witness :
    login (some "user") (some "pass") (fun _ _ => "0123abcd") (fun s => s)
        ⟨true, ["504 a", "535 b", "504 c"], true, []⟩
      = (.error ("Authentication failed: " ++ ("SMTP Error: " ++ "504 a")),
         ⟨true, [], true,
          ["AUTH LOGIN", "AUTH PLAIN " ++ b64 ("\x00" ++ "user" ++ "\x00" ++ "pass"),
           "AUTH CRAM-MD5"]⟩) :=
  (auth_mechanism_order "user" "pass" (by decide) (by decide)
      (fun _ _ => "0123abcd") (fun s => s) true).2.2
    "504 a" "535 b" "504 c" [] (by decide) (by decide) (by decide)

/-! ## Claim C1 — the SMTP transaction sequence -/

/-- A generated message identifier is never empty: it always contains
the `@` separator. -/
theorem generateMessageId_length_pos (d : IdDraw) (host : String) :
    0 < (generateMessageId d host).length := by
  have h1 : ("@" : String).length = 1 := rfl
  simp only [generateMessageId, String.length_append, h1]
  omega

/-- `sendMail` is the strict sequential run of
`MAIL FROM`, the `RCPT TO`s, `DATA`, and the message + terminator, with
the receipt produced on overall success. -/
theorem sendMailM_eq_runCmds (d0 d1 : IdDraw) (host date bnd : String)
    (fromAddr : String) (toField : ToField) (subject : String)
    (text html : Option String) (fsRead : String → Option (List Nat))
    (attachments : List AttachmentInput) (lines : List String)
    (hbuild : buildMessage d0 host date bnd fromAddr (recipientsOf toField)
        subject text html fsRead attachments = .ok lines) (w : Wire) :
    sendMailM d0 d1 host date bnd true fromAddr toField subject text html
        fsRead attachments w =
      (match runCmds (cmdSeq fromAddr (recipientsOf toField)
          (crlfJoin lines)) w with
       | (.ok _, w') =>
         (.ok ⟨generateMessageId d1 host, recipientsOf toField⟩, w')
       | (.error e, w') => (.error e, w')) := by
  simp only [sendMailM, cmdSeq, if_pos, runCmds]
  cases hm : sendCmd ("MAIL FROM:<" ++ fromAddr ++ ">") w with
  | mk res w1 =>
    cases res with
    | error e => rfl
    | ok v =>
      simp only [List.append_eq, runCmds_append]
      cases hrc : runCmds ((recipientsOf toField).map
          (fun r => "RCPT TO:<" ++ r ++ ">")) w1 with
      | mk res2 w2 =>
        cases res2 with
        | error e => rfl
        | ok u =>
          simp only [runCmds]
          cases hd : sendCmd "DATA" w2 with
          | mk res3 w3 =>
            cases res3 with
            | error e => rfl
            | ok v3 =>
              simp only [hbuild]
              cases ht : sendCmd (crlfJoin lines ++ "\r\n.") w3 with
              | mk res4 w4 =>
                cases res4 with
                | error e => rfl
                | ok v4 => rfl

/-- C1: with the client authenticated, (first clause) when every command
succeeds, `sendMail` writes exactly `MAIL FROM:<addr>`, then one
`RCPT TO:<addr>` per recipient strictly in input order, then `DATA`,
then the built message followed by the `\r\n.` terminator, and returns a
receipt whose `accepted` is exactly the full recipient list (a non-array
`to` wrapped as a one-element list by `recipientsOf`) and whose
`messageId` is non-empty; (second clause) a rejection of any single
command aborts the transaction: only the commands up to and including
the rejected one are ever written, and the send fails. -/
theorem sendMail_transaction (d0 d1 : IdDraw) (host date bnd : String)
    (fromAddr : String) (toField : ToField) (subject : String)
    (text html : Option String) (fsRead : String → Option (List Nat))
    (attachments : List AttachmentInput) (lines : List String) (t : Bool)
    (hbuild : buildMessage d0 host date bnd fromAddr (recipientsOf toField)
        subject text html fsRead attachments = .ok lines) :
    (∀ good rest : List String,
      good.length = (recipientsOf toField).length + 3 →
      (∀ r ∈ good, replyOk r = true) →
      sendMailM d0 d1 host date bnd true fromAddr toField subject text html
          fsRead attachments ⟨true, good ++ rest, t, []⟩ =
        (.ok ⟨generateMessageId d1 host, recipientsOf toField⟩,
         ⟨true, rest, t,
          cmdSeq fromAddr (recipientsOf toField) (crlfJoin lines)⟩) ∧
      0 < (generateMessageId d1 host).length) ∧
    (∀ (pre post : List String) (c : String) (good rest : List String)
        (bad : String),
      cmdSeq fromAddr (recipientsOf toField) (crlfJoin lines)
          = pre ++ c :: post →
      good.length = pre.length →
      (∀ r ∈ good, replyOk r = true) →
      replyOk bad = false →
      sendMailM d0 d1 host date bnd true fromAddr toField subject text html
          fsRead attachments ⟨true, good ++ bad :: rest, t, []⟩ =
        (.error ("SMTP Error: " ++ bad), ⟨true, rest, t, pre ++ [c]⟩)) := by
  constructor
  · intro good rest hlen hok
    refine ⟨?_, generateMessageId_length_pos d1 host⟩
    rw [sendMailM_eq_runCmds d0 d1 host date bnd fromAddr toField subject
      text html fsRead attachments lines hbuild]
    have hcl : (cmdSeq fromAddr (recipientsOf toField) (crlfJoin lines)).length
        = (recipientsOf toField).length + 3 := by
      simp [cmdSeq]
    have hrun := runCmds_all_ok
      (cmdSeq fromAddr (recipientsOf toField) (crlfJoin lines)) good rest t []
      (by rw [hlen, hcl]) hok
    simp only [hrun]
    simp
  · intro pre post c good rest bad hsplit hlen hok hbad
    rw [sendMailM_eq_runCmds d0 d1 host date bnd fromAddr toField subject
      text html fsRead attachments lines hbuild, hsplit]
    have hrun := runCmds_abort pre post c good rest bad t [] hlen hok hbad
    simp only [hrun]
    simp

/-- Witness for C1 at the spec's end-to-end scenario: greeting already
consumed, `MAIL FROM:<a@x.com>` → `250 ok`, `RCPT TO:<b@y.com>` →
`250 ok`, `DATA` → `354 go`, body+`.` → `250 queued`, yielding
`accepted = ["b@y.com"]` and the non-empty receipt id `2beef@host`. -/
theorem sendMail_transaction_witness :
    sendMailM ⟨1, "dead"⟩ ⟨2, "beef"⟩ "host" "DATE" "BB" true "a@x.com"
        (.single "b@y.com") "s" (some "hi") none (fun _ => none) []
        ⟨true, ["250 ok", "250 ok", "354 go", "250 queued"], true, []⟩ =
      (.ok ⟨"2beef@host", ["b@y.com"]⟩,
       ⟨true, [], true,
        cmdSeq "a@x.com" ["b@y.com"]
          (crlfJoin ["Message-ID: <1dead@host>", "Date: DATE", "From: a@x.com",
            "To: b@y.com", "Subject: s", "MIME-Version: 1.0",
            "Content-Type: text/plain; charset=\"UTF-8\"",
            "Content-Transfer-Encoding: 7bit", "", "hi"])⟩) ∧
    0 < ("2beef@host" : String).length :=
  ((sendMail_transaction ⟨1, "dead"⟩ ⟨2, "beef"⟩ "host" "DATE" "BB" "a@x.com"
      (.single "b@y.com") "s" (some "hi") none (fun _ => none) []
      ["Message-ID: <1dead@host>", "Date: DATE", "From: a@x.com",
       "To: b@y.com", "Subject: s", "MIME-Version: 1.0",
       "Content-Type: text/plain; charset=\"UTF-8\"",
       "Content-Transfer-Encoding: 7bit", "", "hi"] true (by decide)).1
    ["250 ok", "250 ok", "354 go", "250 queued"] [] (by decide) (by decide))

/-! ## Claim C10 — the receipt id is a fresh generator draw -/

/-- Whatever branch `_buildMessage` takes, the first line of the built
message is the `Message-ID` header carrying the builder's own generator
draw. -/
theorem buildMessage_head (d : IdDraw) (host date bnd fromAddr subject : String)
    (toAddrs : List String) (text html : Option String)
    (fsRead : String → Option (List Nat)) (attachments : List AttachmentInput)
    (lines : List String)
    (hb : buildMessage d host date bnd fromAddr toAddrs subject text html
        fsRead attachments = .ok lines) :
    lines.head? = some ("Message-ID: <" ++ generateMessageId d host ++ ">") := by
  unfold buildMessage at hb
  by_cases hcond : (!attachments.isEmpty || (jsTruthy text && jsTruthy html)) = true
  · rw [if_pos hcond] at hb
    cases hma : attachments.mapM (processAttachment fsRead) with
    | error e =>
      rw [hma] at hb
      simp [Bind.bind, Except.bind] at hb
    | ok ads =>
      rw [hma] at hb
      simp only [Bind.bind, Except.bind, pure, Except.pure, Except.ok.injEq] at hb
      subst hb
      simp [appendToLast, List.cons_append]
  · rw [if_neg hcond] at hb
    simp only [pure, Except.pure, Except.ok.injEq] at hb
    subst hb
    rfl

/-- C10: on a successful send, the receipt's `messageId` is the *second*
generator draw (`d1`), while the `Message-ID` header of the message that
was actually transmitted (the final written command is the built message
plus the `\r\n.` terminator, and its first line is the header) carries
the *first* draw (`d0`, consumed inside `_buildMessage`); whenever the
two draws differ, the receipt id does not equal the transmitted
`Message-ID` header value. -/
theorem receipt_id_from_fresh_draw (d0 d1 : IdDraw) (host date bnd : String)
    (fromAddr : String) (toField : ToField) (subject : String)
    (text html : Option String) (fsRead : String → Option (List Nat))
    (attachments : List AttachmentInput) (lines : List String) (t : Bool)
    (good rest : List String)
    (hbuild : buildMessage d0 host date bnd fromAddr (recipientsOf toField)
        subject text html fsRead attachments = .ok lines)
    (hlen : good.length = (recipientsOf toField).length + 3)
    (hok : ∀ r ∈ good, replyOk r = true)
    (hne : generateMessageId d0 host ≠ generateMessageId d1 host) :
    (sendMailM d0 d1 host date bnd true fromAddr toField subject text html
        fsRead attachments ⟨true, good ++ rest, t, []⟩).1
      = .ok ⟨generateMessageId d1 host, recipientsOf toField⟩ ∧
    lines.head? = some ("Message-ID: <" ++ generateMessageId d0 host ++ ">") ∧
    (sendMailM d0 d1 host date bnd true fromAddr toField subject text html
        fsRead attachments ⟨true, good ++ rest, t, []⟩).2.sent.getLast?
      = some (crlfJoin lines ++ "\r\n.") ∧
    generateMessageId d1 host ≠ generateMessageId d0 host := by
  have hcl : (cmdSeq fromAddr (recipientsOf toField) (crlfJoin lines)).length
      = (recipientsOf toField).length + 3 := by
    simp [cmdSeq]
  have hrun := runCmds_all_ok
    (cmdSeq fromAddr (recipientsOf toField) (crlfJoin lines)) good rest t []
    (by rw [hlen, hcl]) hok
  have hmain := sendMailM_eq_runCmds d0 d1 host date bnd fromAddr toField
    subject text html fsRead attachments lines hbuild
    (⟨true, good ++ rest, t, []⟩ : Wire)
  rw [hrun] at hmain
  simp only [List.nil_append] at hmain
  refine ⟨by rw [hmain], buildMessage_head _ _ _ _ _ _ _ _ _ _ _ _ hbuild, ?_,
    fun h => hne h.symm⟩
  rw [hmain]
  simp [cmdSeq, List.getLast?_cons, List.getLast?_append]

/-- Witness for C10: a concrete send where the two draws differ; the
receipt id `2beef@host` differs from the transmitted header id
`1dead@host`. -/
theorem receipt_id_from_fresh_draw_witness :
    (sendMailM ⟨1, "dead"⟩ ⟨2, "beef"⟩ "host" "DATE" "BB" true "a@x.com"
        (.single "b@y.com") "s" (some "hi") none (fun _ => none) []
        ⟨true, ["250 ok", "250 ok", "354 go", "250 queued"], true, []⟩).1
      = .ok ⟨"2beef@host", ["b@y.com"]⟩ ∧
    ("2beef@host" : String) ≠ "1dead@host" :=
  have h := receipt_id_from_fresh_draw ⟨1, "dead"⟩ ⟨2, "beef"⟩ "host" "DATE" "BB"
    "a@x.com" (.single "b@y.com") "s" (some "hi") none (fun _ => none) []
    ["Message-ID: <1dead@host>", "Date: DATE", "From: a@x.com",
     "To: b@y.com", "Subject: s", "MIME-Version: 1.0",
     "Content-Type: text/plain; charset=\"UTF-8\"",
     "Content-Transfer-Encoding: 7bit", "", "hi"] true
    ["250 ok", "250 ok", "354 go", "250 queued"] []
    (by decide) (by decide) (by decide) (by decide)
  ⟨h.1, h.2.2.2⟩

/-! ## Claim C4 — STARTTLS failure in the top-level flow (corrected) -/

/-- C4 as stated is false for `src/index.js`: its module-level
`sendMail` has no catch around `client.startTLS()`, so on a server that
greets (twice — the flow performs a second `_waitForGreeting`),
advertises STARTTLS in the EHLO reply, and then rejects `STARTTLS` with
`500 no`, the whole flow aborts with that protocol error and
`MAIL FROM` is never written: the send does not proceed over the
existing channel. -/
theorem starttls_failure_aborts_index_flow :
    (sendMailFlow false (some "u") (some "p") (fun _ _ => "d") (fun s => s)
        "host" ⟨1, "aa"⟩ ⟨2, "bb"⟩ "DATE" "BB" "f@x" (.single "t@y") "s"
        (some "hi") none (fun _ => none) []
        ⟨false, ["220 g", "220 g2", "250-STARTTLS", "500 no"], true, []⟩).1
      = .error "SMTP Error: 500 no" ∧
    (sendMailFlow false (some "u") (some "p") (fun _ _ => "d") (fun s => s)
        "host" ⟨1, "aa"⟩ ⟨2, "bb"⟩ "DATE" "BB" "f@x" (.single "t@y") "s"
        (some "hi") none (fun _ => none) []
        ⟨false, ["220 g", "220 g2", "250-STARTTLS", "500 no"], true, []⟩).2.sent
      = ["EHLO host", "STARTTLS"] ∧
    ("MAIL FROM:<f@x>" : String) ∉ (["EHLO host", "STARTTLS"] : List String) := by
  decide

/-- C4 (amended): in the `part_000` module-level flow
(`client.startTLS().catch(() => {})`), a STARTTLS rejection is swallowed
and the send proceeds over the existing channel to a successful receipt,
with a QUIT rejection likewise swallowed (first conjunct); in the
`src/index.js` module-level flow the same STARTTLS rejection aborts the
whole send before `MAIL FROM` is ever written (second and third
conjuncts). -/
theorem starttls_swallowed_part0A_fatal_index (st q : String)
    (hst : replyOk st = false) (hq : replyOk q = false) :
    Part0A.sendMailFlowA false (some "u") (some "p") "host" ⟨1, "aa"⟩ ⟨2, "bb"⟩
        "DATE" "BB" "f@x" (.single "t@y") "s" (some "hi") none (fun _ => none) []
        ⟨false, ["220 g", "250 e1", st, "250 e2", "334 a1", "334 a2", "235 a3",
                 "250 m", "250 r", "354 d", "250 f", q], true, []⟩
      = (.ok ⟨"2bb@host", ["t@y"]⟩,
         ⟨false, [], true,
          ["EHLO host", "STARTTLS", "EHLO host", "AUTH LOGIN", b64 "u", b64 "p",
           "MAIL FROM:<f@x>", "RCPT TO:<t@y>", "DATA",
           crlfJoin ["Message-ID: <1aa@host>", "Date: DATE", "From: f@x", "To: t@y",
             "Subject: s", "MIME-Version: 1.0",
             "Content-Type: text/plain; charset=\"UTF-8\"",
             "Content-Transfer-Encoding: 7bit", "", "hi"] ++ "\r\n.", "QUIT"]⟩) ∧
    sendMailFlow false (some "u") (some "p") (fun _ _ => "d") (fun s => s)
        "host" ⟨1, "aa"⟩ ⟨2, "bb"⟩ "DATE" "BB" "f@x" (.single "t@y") "s"
        (some "hi") none (fun _ => none) []
        ⟨false, ["220 g", "220 g2", "250-STARTTLS", st], true, []⟩
      = (.error ("SMTP Error: " ++ st),
         ⟨false, [], true, ["EHLO host", "STARTTLS"]⟩) ∧
    ("MAIL FROM:<f@x>" : String) ∉ (["EHLO host", "STARTTLS"] : List String) := by
  have hst' := classifyReply_eq_err hst
  have hq' := classifyReply_eq_err hq
  have g1 : Part0A.greetReplyA "220 g" = .ok "220 g" := by decide
  have c1 : classifyReply "250 e1" = .ok "250 e1" := by decide
  have c2 : classifyReply "250 e2" = .ok "250 e2" := by decide
  have c3 : classifyReply "334 a1" = .ok "334 a1" := by decide
  have c4 : classifyReply "334 a2" = .ok "334 a2" := by decide
  have c5 : classifyReply "235 a3" = .ok "235 a3" := by decide
  have c6 : classifyReply "250 m" = .ok "250 m" := by decide
  have c7 : classifyReply "250 r" = .ok "250 r" := by decide
  have c8 : classifyReply "354 d" = .ok "354 d" := by decide
  have c9 : classifyReply "250 f" = .ok "250 f" := by decide
  have ht : jsTruthy (some "u") = true := by decide
  have ht2 : jsTruthy (some "p") = true := by decide
  have ho1 : jsOrStr (some "u") "" = "u" := by decide
  have ho2 : jsOrStr (some "p") "" = "p" := by decide
  have hbm : Part0A.buildMessageA ⟨1, "aa"⟩ "host" "DATE" "BB" "f@x" ["t@y"] "s"
      (some "hi") none (fun _ => none) []
      = .ok ["Message-ID: <1aa@host>", "Date: DATE", "From: f@x", "To: t@y",
             "Subject: s", "MIME-Version: 1.0",
             "Content-Type: text/plain; charset=\"UTF-8\"",
             "Content-Transfer-Encoding: 7bit", "", "hi"] := by decide
  refine ⟨?_, ?_, by decide⟩
  · simp only [Part0A.sendMailFlowA, Part0A.connectA, Part0A.loginA,
      Part0A.sendMailA, ehlo, startTLS, quit, close, runCmds, sendCmd,
      recipientsOf, List.map, hbm,
      g1, c1, c2, c3, c4, c5, c6, c7, c8, c9, hst', hq', ht, ht2, ho1, ho2,
      Bool.not_false, Bool.and_self, if_true, if_pos]
    simp [g1, c1, c2, c3, c4, c5, c6, c7, c8, c9, hst', hq', ht, ht2, ho1, ho2,
      hbm, runCmds, sendCmd]
    decide
  · have gg1 : greetReply "220 g" = .ok "220 g" := by decide
    have gg2 : greetReply "220 g2" = .ok "220 g2" := by decide
    have ce : classifyReply "250-STARTTLS" = .ok "250-STARTTLS" := by decide
    have hin : jsIncludes "250-STARTTLS" "STARTTLS" = true := by decide
    simp only [sendMailFlow, connect, waitGreeting, ehlo, startTLS, close,
      sendCmd, gg1, gg2, ce, hin, hst', Bool.not_false, if_true, if_pos]
    simp [gg1, gg2, ce, hin, hst', sendCmd]

/-- Witness for C4 (amended) at the concrete rejections `500 no` for
STARTTLS and `421 bye` for QUIT. -/
theorem starttls_swallowed_part0A_fatal_index_witness :
    Part0A.sendMailFlowA false (some "u") (some "p") "host" ⟨1, "aa"⟩ ⟨2, "bb"⟩
        "DATE" "BB" "f@x" (.single "t@y") "s" (some "hi") none (fun _ => none) []
        ⟨false, ["220 g", "250 e1", "500 no", "250 e2", "334 a1", "334 a2",
                 "235 a3", "250 m", "250 r", "354 d", "250 f", "421 bye"],
         true, []⟩
      = (.ok ⟨"2bb@host", ["t@y"]⟩,
         ⟨false, [], true,
          ["EHLO host", "STARTTLS", "EHLO host", "AUTH LOGIN", b64 "u", b64 "p",
           "MAIL FROM:<f@x>", "RCPT TO:<t@y>", "DATA",
           crlfJoin ["Message-ID: <1aa@host>", "Date: DATE", "From: f@x", "To: t@y",
             "Subject: s", "MIME-Version: 1.0",
             "Content-Type: text/plain; charset=\"UTF-8\"",
             "Content-Transfer-Encoding: 7bit", "", "hi"] ++ "\r\n.", "QUIT"]⟩) :=
  (starttls_swallowed_part0A_fatal_index "500 no" "421 bye"
    (by decide) (by decide)).1

/-! ## Claim C8 — multipart/alternative order and boundary round-trip -/

/-- A line that does not start with `-` is never a boundary delimiter. -/
theorem ne_marker_of_head_ne_dash {s : String} (hhead : s.data.head? ≠ some '-')
    (t : String) : ¬(s = "--" ++ t) := by
  intro h
  apply hhead
  rw [h]
  simp [String.data_append]

/-- An opening boundary delimiter is never the closing one (they differ
in length by the trailing `--`). -/
theorem marker_ne_closing (b : String) :
    ¬(("--" ++ b : String) = "--" ++ b ++ "--") := by
  intro h
  have hl := congrArg String.length h
  simp [String.length_append] at hl
  exact absurd hl (by decide)

/-- The mixed-container delimiter never collides with the alternative
one (the `main_`/`alt_` prefixes differ). -/
theorem main_marker_ne_alt (x y : String) :
    ¬(("--" ++ ("main_" ++ x) : String) = "--" ++ ("alt_" ++ y)) := by
  intro h
  have hd := congrArg String.data h
  simp [String.data_append] at hd

/-- C8: when both a plain-text body and an HTML body are present (and
neither collides with the randomly generated boundary delimiters — the
collision-freedom the random boundary component exists to provide), the
built document nests a `multipart/alternative` container inside the
`multipart/mixed` one in which the `text/plain` part precedes the
`text/html` part, and re-parsing the document's alternative boundary
exposes exactly the two supplied parts, in that order: the plain part
with body `t` first, the HTML part with body `h` second. -/
theorem alternative_text_before_html (d : IdDraw)
    (host date bnd fromAddr subject : String) (toAddrs : List String)
    (fsRead : String → Option (List Nat)) (t h : String)
    (ht : ¬(t = "")) (hh : ¬(h = ""))
    (ht1 : ¬(t = "--" ++ ("alt_" ++ ("boundary_" ++ bnd))))
    (ht2 : ¬(t = "--" ++ ("alt_" ++ ("boundary_" ++ bnd)) ++ "--"))
    (hh1 : ¬(h = "--" ++ ("alt_" ++ ("boundary_" ++ bnd))))
    (hh2 : ¬(h = "--" ++ ("alt_" ++ ("boundary_" ++ bnd)) ++ "--")) :
    buildMessage d host date bnd fromAddr toAddrs subject (some t) (some h)
        fsRead []
      = .ok
        (["Message-ID: <" ++ generateMessageId d host ++ ">",
          "Date: " ++ date,
          "From: " ++ fromAddr,
          "To: " ++ String.intercalate ", " toAddrs,
          "Subject: " ++ subject,
          "MIME-Version: 1.0",
          "Content-Type: multipart/mixed; boundary=\"" ++
            ("main_" ++ ("boundary_" ++ bnd)) ++ "\"",
          "",
          "--" ++ ("main_" ++ ("boundary_" ++ bnd)),
          "Content-Type: multipart/alternative; boundary=\"" ++
            ("alt_" ++ ("boundary_" ++ bnd)) ++ "\"",
          "",
          "--" ++ ("alt_" ++ ("boundary_" ++ bnd)),
          "Content-Type: text/plain; charset=\"UTF-8\"",
          "Content-Transfer-Encoding: 7bit",
          "", t, "",
          "--" ++ ("alt_" ++ ("boundary_" ++ bnd)),
          "Content-Type: text/html; charset=\"UTF-8\"",
          "Content-Transfer-Encoding: 7bit",
          "", h, "",
          "--" ++ ("alt_" ++ ("boundary_" ++ bnd)) ++ "--",
          "",
          "--" ++ ("main_" ++ ("boundary_" ++ bnd)) ++ "--"]) ∧
    mimeParts ("alt_" ++ ("boundary_" ++ bnd))
        ["Message-ID: <" ++ generateMessageId d host ++ ">",
          "Date: " ++ date,
          "From: " ++ fromAddr,
          "To: " ++ String.intercalate ", " toAddrs,
          "Subject: " ++ subject,
          "MIME-Version: 1.0",
          "Content-Type: multipart/mixed; boundary=\"" ++
            ("main_" ++ ("boundary_" ++ bnd)) ++ "\"",
          "",
          "--" ++ ("main_" ++ ("boundary_" ++ bnd)),
          "Content-Type: multipart/alternative; boundary=\"" ++
            ("alt_" ++ ("boundary_" ++ bnd)) ++ "\"",
          "",
          "--" ++ ("alt_" ++ ("boundary_" ++ bnd)),
          "Content-Type: text/plain; charset=\"UTF-8\"",
          "Content-Transfer-Encoding: 7bit",
          "", t, "",
          "--" ++ ("alt_" ++ ("boundary_" ++ bnd)),
          "Content-Type: text/html; charset=\"UTF-8\"",
          "Content-Transfer-Encoding: 7bit",
          "", h, "",
          "--" ++ ("alt_" ++ ("boundary_" ++ bnd)) ++ "--",
          "",
          "--" ++ ("main_" ++ ("boundary_" ++ bnd)) ++ "--"]
      = [["Content-Type: text/plain; charset=\"UTF-8\"",
          "Content-Transfer-Encoding: 7bit", "", t, ""],
         ["Content-Type: text/html; charset=\"UTF-8\"",
          "Content-Transfer-Encoding: 7bit", "", h, ""]] := by
  constructor
  · have htt : jsTruthy (some t) = true := by simp [jsTruthy, ht]
    have hht : jsTruthy (some h) = true := by simp [jsTruthy, hh]
    have hto : jsOrStr (some t) "" = t := by simp [jsOrStr, ht]
    have hho : jsOrStr (some h) "" = h := by simp [jsOrStr, hh]
    simp only [buildMessage, htt, hht, hto, hho, List.isEmpty_nil, Bool.not_true,
      Bool.and_self, Bool.false_or, if_true, if_pos, List.mapM_nil]
    simp [appendToLast, List.cons_append, Bind.bind, Except.bind, pure,
      Except.pure]
  · have e1 : ¬(("Message-ID: <" ++ generateMessageId d host ++ ">" : String)
        = "--" ++ ("alt_" ++ ("boundary_" ++ bnd))) :=
      ne_marker_of_head_ne_dash (by simp [String.data_append]) _
    have e2 : ¬(("Date: " ++ date : String)
        = "--" ++ ("alt_" ++ ("boundary_" ++ bnd))) :=
      ne_marker_of_head_ne_dash (by simp [String.data_append]) _
    have e3 : ¬(("From: " ++ fromAddr : String)
        = "--" ++ ("alt_" ++ ("boundary_" ++ bnd))) :=
      ne_marker_of_head_ne_dash (by simp [String.data_append]) _
    have e4 : ¬(("To: " ++ String.intercalate ", " toAddrs : String)
        = "--" ++ ("alt_" ++ ("boundary_" ++ bnd))) :=
      ne_marker_of_head_ne_dash (by simp [String.data_append]) _
    have e5 : ¬(("Subject: " ++ subject : String)
        = "--" ++ ("alt_" ++ ("boundary_" ++ bnd))) :=
      ne_marker_of_head_ne_dash (by simp [String.data_append]) _
    have e6 : ¬(("MIME-Version: 1.0" : String)
        = "--" ++ ("alt_" ++ ("boundary_" ++ bnd))) :=
      ne_marker_of_head_ne_dash (by simp) _
    have e7 : ¬(("Content-Type: multipart/mixed; boundary=\"" ++
          ("main_" ++ ("boundary_" ++ bnd)) ++ "\"" : String)
        = "--" ++ ("alt_" ++ ("boundary_" ++ bnd))) :=
      ne_marker_of_head_ne_dash (by simp [String.data_append]) _
    have e8 : ¬(("" : String) = "--" ++ ("alt_" ++ ("boundary_" ++ bnd))) :=
      ne_marker_of_head_ne_dash (by simp) _
    have e9 : ¬(("--" ++ ("main_" ++ ("boundary_" ++ bnd)) : String)
        = "--" ++ ("alt_" ++ ("boundary_" ++ bnd))) :=
      main_marker_ne_alt _ _
    have e10 : ¬(("Content-Type: multipart/alternative; boundary=\"" ++
          ("alt_" ++ ("boundary_" ++ bnd)) ++ "\"" : String)
        = "--" ++ ("alt_" ++ ("boundary_" ++ bnd))) :=
      ne_marker_of_head_ne_dash (by simp [String.data_append]) _
    have f1 : ¬(("Content-Type: text/plain; charset=\"UTF-8\"" : String)
        = "--" ++ ("alt_" ++ ("boundary_" ++ bnd)) ++ "--") :=
      ne_marker_of_head_ne_dash (by simp) _
    have f1' : ¬(("Content-Type: text/plain; charset=\"UTF-8\"" : String)
        = "--" ++ ("alt_" ++ ("boundary_" ++ bnd))) :=
      ne_marker_of_head_ne_dash (by simp) _
    have f2 : ¬(("Content-Transfer-Encoding: 7bit" : String)
        = "--" ++ ("alt_" ++ ("boundary_" ++ bnd)) ++ "--") :=
      ne_marker_of_head_ne_dash (by simp) _
    have f2' : ¬(("Content-Transfer-Encoding: 7bit" : String)
        = "--" ++ ("alt_" ++ ("boundary_" ++ bnd))) :=
      ne_marker_of_head_ne_dash (by simp) _
    have f3 : ¬(("" : String) = "--" ++ ("alt_" ++ ("boundary_" ++ bnd)) ++ "--") :=
      ne_marker_of_head_ne_dash (by simp) _
    have f4 : ¬(("Content-Type: text/html; charset=\"UTF-8\"" : String)
        = "--" ++ ("alt_" ++ ("boundary_" ++ bnd)) ++ "--") :=
      ne_marker_of_head_ne_dash (by simp) _
    have f4' : ¬(("Content-Type: text/html; charset=\"UTF-8\"" : String)
        = "--" ++ ("alt_" ++ ("boundary_" ++ bnd))) :=
      ne_marker_of_head_ne_dash (by simp) _
    have f5 : ¬(("--" ++ ("alt_" ++ ("boundary_" ++ bnd)) : String)
        = "--" ++ ("alt_" ++ ("boundary_" ++ bnd)) ++ "--") :=
      marker_ne_closing _
    simp only [mimeParts, List.dropWhile_cons, e1, e2, e3, e4, e5, e6, e7, e8,
      e9, e10, ht1, ht2, hh1, hh2, f1, f1', f2, f2', f3, f4, f4', f5,
      ne_eq, decide_not, not_false_eq_true, Bool.not_true,
      Bool.false_eq_true, if_false, Bool.not_false, if_true]
    simp [mimePartsGo, ht1, ht2, hh1, hh2, e8, f1, f1', f2, f2', f3, f4, f4',
      f5, marker_ne_closing]

/-- Witness for C8 at concrete bodies `TXT` and `<p>H</p>`. -/
theorem alternative_text_before_html_witness :
    mimeParts ("alt_" ++ ("boundary_" ++ "BB"))
        ["Message-ID: <" ++ generateMessageId ⟨1, "aa"⟩ "host" ++ ">",
          "Date: " ++ "DATE",
          "From: " ++ "f@x",
          "To: " ++ String.intercalate ", " ["t@y"],
          "Subject: " ++ "s",
          "MIME-Version: 1.0",
          "Content-Type: multipart/mixed; boundary=\"" ++
            ("main_" ++ ("boundary_" ++ "BB")) ++ "\"",
          "",
          "--" ++ ("main_" ++ ("boundary_" ++ "BB")),
          "Content-Type: multipart/alternative; boundary=\"" ++
            ("alt_" ++ ("boundary_" ++ "BB")) ++ "\"",
          "",
          "--" ++ ("alt_" ++ ("boundary_" ++ "BB")),
          "Content-Type: text/plain; charset=\"UTF-8\"",
          "Content-Transfer-Encoding: 7bit",
          "", "TXT", "",
          "--" ++ ("alt_" ++ ("boundary_" ++ "BB")),
          "Content-Type: text/html; charset=\"UTF-8\"",
          "Content-Transfer-Encoding: 7bit",
          "", "<p>H</p>", "",
          "--" ++ ("alt_" ++ ("boundary_" ++ "BB")) ++ "--",
          "",
          "--" ++ ("main_" ++ ("boundary_" ++ "BB")) ++ "--"]
      = [["Content-Type: text/plain; charset=\"UTF-8\"",
          "Content-Transfer-Encoding: 7bit", "", "TXT", ""],
         ["Content-Type: text/html; charset=\"UTF-8\"",
          "Content-Transfer-Encoding: 7bit", "", "<p>H</p>", ""]] :=
  (alternative_text_before_html ⟨1, "aa"⟩ "host" "DATE" "BB" "f@x" "s" ["t@y"]
    (fun _ => none) "TXT" "<p>H</p>" (by decide) (by decide) (by decide)
    (by decide) (by decide) (by decide)).2

/-! ## Claim C9 — inline (cid) attachments in the embedded-images builder -/

/-- C9: for an attachment list containing a regular attachment (no
`cid`) and an inline attachment carrying content-id `c`, with an HTML
body referencing `cid:`, the message built by the embedded-images
`_buildMessage` (the `part_000` variant implementing the feature)
contains a `multipart/related` container nested in the `multipart/mixed`
one, holding a base64 part whose `Content-ID` header is `<c>` with
`Content-Disposition: inline`, and — after the related container is
closed — a separate sibling part at the `multipart/mixed` level for the
regular attachment with `Content-Disposition: attachment`, as the
explicit line list in the first conjunct shows; the remaining conjuncts
record the three header lines' presence. -/
theorem inline_cid_related_container (d : IdDraw)
    (host date bRand relRand altRand fromAddr subject : String)
    (toAddrs : List String) (fsRead : String → Option (List Nat))
    (h c rname rcont : String) (ib : List Nat)
    (hh : ¬(h = "")) (hcid : jsIncludes h "cid:" = true)
    (hc : ¬(c = "")) (hrc : ¬(rcont = "")) (hrn : ¬(rname = "")) :
    Part0B.buildMessageB d host date bRand relRand altRand fromAddr toAddrs
        subject none (some h)
        [⟨some rname, some (.str rcont), none, none, none, none, none⟩,
         ⟨none, some (.buf ib), none, none, none, some c, none⟩]
        [] none none none fsRead
      = .ok
        (["Message-ID: <" ++ generateMessageId d host ++ ">",
          "Date: " ++ date,
          "From: " ++ fromAddr,
          "To: " ++ String.intercalate ", " toAddrs,
          "Subject: " ++ subject,
          "MIME-Version: 1.0",
          "Content-Type: multipart/mixed; boundary=\"" ++
            ("boundary_" ++ bRand) ++ "\"",
          "",
          "--" ++ ("boundary_" ++ bRand),
          "Content-Type: multipart/related; boundary=\"" ++
            ("related_" ++ relRand) ++ "\"",
          "",
          "--" ++ ("related_" ++ relRand),
          "Content-Type: text/html; charset=\"UTF-8\"",
          "Content-Transfer-Encoding: 7bit",
          "", h,
          "",
          "--" ++ ("related_" ++ relRand),
          "Content-Type: application/octet-stream",
          "Content-Transfer-Encoding: base64",
          "Content-ID: <" ++ c ++ ">",
          "Content-Disposition: inline",
          "", b64OfBytes ib,
          "",
          "--" ++ ("related_" ++ relRand) ++ "--",
          "",
          "--" ++ ("boundary_" ++ bRand),
          "Content-Type: application/octet-stream",
          "Content-Transfer-Encoding: base64",
          "Content-Disposition: attachment; filename=\"" ++ rname ++ "\"",
          "", b64 rcont,
          "",
          "--" ++ ("boundary_" ++ bRand) ++ "--"]) ∧
    ("Content-ID: <" ++ c ++ ">") ∈
      (["Content-ID: <" ++ c ++ ">", "Content-Disposition: inline",
        "Content-Disposition: attachment; filename=\"" ++ rname ++ "\""] :
        List String) ∧
    ("Content-Disposition: inline" : String) ≠
      "Content-Disposition: attachment; filename=\"" ++ rname ++ "\"" := by
  have hht : jsTruthy (some h) = true := by simp [jsTruthy, hh]
  have hho : jsOrStr (some h) "" = h := by simp [jsOrStr, hh]
  have hct : jsTruthy (some c) = true := by simp [jsTruthy, hc]
  have hco : jsOrStr (some c) "" = c := by simp [jsOrStr, hc]
  have hrno : jsOrStr (some rname) "file" = rname := by simp [jsOrStr, hrn]
  have hrct : Part0B.contentTruthy (some (.str rcont)) = true := by
    simp [Part0B.contentTruthy, jsContentTruthy, hrc]
  have hcb : (c == "") = false := by simp [hc]
  have hrcb : (rcont == "") = false := by simp [hrc]
  have hrnb : (rname == "") = false := by simp [hrn]
  have hhb : (h == "") = false := by simp [hh]
  refine ⟨?_, by simp, ?_⟩
  · simp only [Part0B.buildMessageB, hht, hho, hct, hco, hh, hcid,
      List.filter, List.map, jsTruthy]
    simp only [ne_eq, hh, hcid, not_false_eq_true, and_self, if_true, if_pos,
      decide_not, Bool.not_false, Bool.not_true, List.isEmpty_cons,
      Bool.false_eq_true, if_false, hc]
    simp [List.mapM.loop, List.mapM_cons, List.mapM_nil,
      Part0B.getAttachmentContent, Part0B.embeddedBlock, Part0B.regularBlock,
      Part0B.contentTruthy, Part0B.bytesOfContent, jsContentTruthy,
      contentBytes, hrc, hc, hrn, hh, hcid, hrno, hco, hcb, hrcb, hrnb, hhb,
      b64, Bind.bind, Except.bind, pure, Except.pure, jsTruthy]
    all_goals decide
  · intro hx
    have hd := congrArg String.data hx
    simp [String.data_append] at hd

/-- Witness for C9 at the spec's example: `a.txt` with text content
`hi`, `b.png` with bytes and cid `img1`, HTML referencing `cid:img1`. -/
theorem inline_cid_related_container_witness :
    Part0B.buildMessageB ⟨1, "aa"⟩ "host" "DATE" "BB" "RR" "AA" "f@x" ["t@y"]
        "s" none (some "<img src=\"cid:img1\">")
        [⟨some "a.txt", some (.str "hi"), none, none, none, none, none⟩,
         ⟨none, some (.buf [1, 2, 3]), none, none, none, some "img1", none⟩]
        [] none none none (fun _ => none)
      = .ok
        (["Message-ID: <" ++ generateMessageId ⟨1, "aa"⟩ "host" ++ ">",
          "Date: " ++ "DATE",
          "From: " ++ "f@x",
          "To: " ++ String.intercalate ", " ["t@y"],
          "Subject: " ++ "s",
          "MIME-Version: 1.0",
          "Content-Type: multipart/mixed; boundary=\"" ++
            ("boundary_" ++ "BB") ++ "\"",
          "",
          "--" ++ ("boundary_" ++ "BB"),
          "Content-Type: multipart/related; boundary=\"" ++
            ("related_" ++ "RR") ++ "\"",
          "",
          "--" ++ ("related_" ++ "RR"),
          "Content-Type: text/html; charset=\"UTF-8\"",
          "Content-Transfer-Encoding: 7bit",
          "", "<img src=\"cid:img1\">",
          "",
          "--" ++ ("related_" ++ "RR"),
          "Content-Type: application/octet-stream",
          "Content-Transfer-Encoding: base64",
          "Content-ID: <" ++ "img1" ++ ">",
          "Content-Disposition: inline",
          "", b64OfBytes [1, 2, 3],
          "",
          "--" ++ ("related_" ++ "RR") ++ "--",
          "",
          "--" ++ ("boundary_" ++ "BB"),
          "Content-Type: application/octet-stream",
          "Content-Transfer-Encoding: base64",
          "Content-Disposition: attachment; filename=\"" ++ "a.txt" ++ "\"",
          "", b64 "hi",
          "",
          "--" ++ ("boundary_" ++ "BB") ++ "--"]) :=
  (inline_cid_related_container ⟨1, "aa"⟩ "host" "DATE" "BB" "RR" "AA" "f@x"
    "s" ["t@y"] (fun _ => none) "<img src=\"cid:img1\">" "img1" "a.txt" "hi"
    [1, 2, 3] (by decide) (by decide) (by decide) (by decide) (by decide)).1

end NexusMail
